import Mathlib

/-!
Shallow embedding of the physics core of the 2D sandbox game
(rigid-body simulator, SPH fluid simulator, spatial hash lookup,
numerical integrator) and proofs about it.

Conventions used throughout this development:
  - the machine type f32 is modelled by the exact rationals, except where
    a square root is taken (circle-circle collision), which is modelled
    over the reals;
  - the two infinities returned by the mass and moment-of-inertia
    accessors of a Static body are modelled by the value none of
    an Option, matching the inverse_value helper of the source which is
    the only consumer of those infinities on the executed paths;
  - Rust Vec is modelled by List, with List.set (a no-op out of range)
    modelling the in-place indexed writes and List.getD modelling
    indexed reads;
  - the process-wide random number generator is modelled by passing the
    drawn values (each in the interval from 0 inclusive to 1 exclusive,
    the documented range of fastrand f32) as explicit arguments.
-/

/-- Model of Vector2 from math/vector2.rs: a pair of coordinates. -/
structure Vector2 (α : Type) where
  x : α
  y : α
deriving DecidableEq, Repr

instance {α : Type} [Add α] : Add (Vector2 α) where
  add a b := ⟨a.x + b.x, a.y + b.y⟩

instance {α : Type} [Sub α] : Sub (Vector2 α) where
  sub a b := ⟨a.x - b.x, a.y - b.y⟩

instance {α : Type} [Mul α] : HMul (Vector2 α) α (Vector2 α) where
  hMul v s := ⟨v.x * s, v.y * s⟩

instance {α : Type} [Div α] : HDiv (Vector2 α) α (Vector2 α) where
  hDiv v s := ⟨v.x / s, v.y / s⟩

/-- Model of Vector2::zero. -/
def Vector2.zero {α : Type} [Zero α] : Vector2 α := ⟨0, 0⟩

instance {α : Type} [Zero α] : Zero (Vector2 α) := ⟨Vector2.zero⟩

/-- Model of Vector2::length_squared. -/
def Vector2.length_squared {α : Type} [Add α] [Mul α] (v : Vector2 α) : α :=
  v.x * v.x + v.y * v.y

/-- Model of Vector2::dot. -/
def Vector2.dot {α : Type} [Add α] [Mul α] (v other : Vector2 α) : α :=
  v.x * other.x + v.y * other.y

/-- Model of Vector2::cross. -/
def Vector2.cross {α : Type} [Sub α] [Mul α] (v other : Vector2 α) : α :=
  v.x * other.y - v.y * other.x

/-- Model of Vector2::normal: the perpendicular vector, not to be
mistaken for normalization. -/
def Vector2.normal {α : Type} [Neg α] (v : Vector2 α) : Vector2 α :=
  ⟨-v.y, v.x⟩

/-- Model of Vector2::is_zero. -/
def Vector2.is_zero {α : Type} [Zero α] [DecidableEq α] (v : Vector2 α) : Bool :=
  v.x = 0 && v.y = 0

/-- Model of Vector2::length over the reals: the square root of the
squared length (f32 sqrt is modelled by the exact real square root). -/
noncomputable def Vector2.length (v : Vector2 ℝ) : ℝ :=
  Real.sqrt v.length_squared

/-- Model of Vector2::normalized (via Vector2::normalize): both
components divided by the length. On the zero vector the source divides
by zero and yields NaN; here the division by zero yields zero. -/
noncomputable def Vector2.normalized (v : Vector2 ℝ) : Vector2 ℝ :=
  ⟨v.x / v.length, v.y / v.length⟩

/-- Model of runge_kutta from utility/numerical.rs, verbatim: the
stages k1 to k4 are built from the constant rate_of_change and the
result adds their weighted sum times one sixth of the step. -/
def runge_kutta {α : Type} [Add α] [HMul α ℚ α] (current_value : α) (step : ℚ)
    (rate_of_change : α) : α :=
  let k1 := rate_of_change
  let k2 := rate_of_change + (k1 * (1/2 : ℚ)) * step
  let k3 := rate_of_change + (k2 * (1/2 : ℚ)) * step
  let k4 := rate_of_change + k3 * step
  current_value + (k1 + k2 * (2 : ℚ) + k3 * (2 : ℚ) + k4) * (step / 6)

/-- Model of SharedProperty from rb_simulation.rs: a per-body material
override that either fixes a value or defers to the partner body. -/
inductive SharedProperty (α : Type) where
  | Value (v : α)
  | Pass
deriving DecidableEq, Repr

/-- Model of SharedPropertySelection from rb_simulation.rs. -/
inductive SharedPropertySelection where
  | Multiply
  | Average
  | Min
  | Max
deriving DecidableEq, Repr

/-- Model of SharedPropertySelection::select at the f32 instantiation
(modelled by the rationals): the pair of properties is matched first,
with a Value and a Pass returning the value immediately and two Pass
returning the f32 default (zero); two values are then combined by the
selection rule. -/
def SharedPropertySelection.select (sel : SharedPropertySelection)
    (a b : SharedProperty ℚ) : ℚ :=
  match a, b with
  | .Value a, .Value b =>
    match sel with
    | .Multiply => a * b
    | .Average => (a + b) * (1/2 : ℚ)
    | .Min => if a < b then a else b
    | .Max => if a > b then a else b
  | .Value v, .Pass => v
  | .Pass, .Value v => v
  | .Pass, .Pass => 0

/-- Model of BodyBehaviour from rigidbody/mod.rs. -/
inductive BodyBehaviour where
  | Dynamic
  | Static
deriving DecidableEq, Repr

/-- Default of BodyBehaviour in the source is Dynamic. -/
instance : Inhabited BodyBehaviour := ⟨BodyBehaviour.Dynamic⟩

/-- Model of BodyState from rigidbody/mod.rs, with the material
properties as SharedProperty values as pinned by serialization and by
the uses in rb_simulation.rs. The color field, irrelevant to the
simulation, is omitted. -/
structure BodyState (α : Type) where
  position : Vector2 α
  velocity : Vector2 α
  angular_velocity : α
  orientation : α
  behaviour : BodyBehaviour
  mass : α
  moment_of_inertia : α
  elasticity : SharedProperty α
  static_friction : SharedProperty α
  dynamic_friction : SharedProperty α
  accumulated_force : Vector2 α
  accumulated_torque : α
deriving DecidableEq, Repr

instance {α : Type} [Zero α] : Inhabited (BodyState α) :=
  ⟨⟨Vector2.zero, Vector2.zero, 0, 0, BodyBehaviour.Dynamic, 0, 0,
    SharedProperty.Value 0, SharedProperty.Value 0, SharedProperty.Value 0,
    Vector2.zero, 0⟩⟩

/-- Model of the method BodyState::mass, which reports positive infinity
for a Static body and the stored mass otherwise; the infinity is
modelled by none. -/
def BodyState.massFn (s : BodyState ℚ) : Option ℚ :=
  if s.behaviour = BodyBehaviour.Static then none else some s.mass

/-- Model of the method BodyState::moment_of_inertia, which reports
positive infinity for a Static body; the infinity is modelled by none. -/
def BodyState.moment_of_inertiaFn (s : BodyState ℚ) : Option ℚ :=
  if s.behaviour = BodyBehaviour.Static then none else some s.moment_of_inertia

/-- Model of BodyState::add_force. -/
def BodyState.add_force (s : BodyState ℚ) (force : Vector2 ℚ) : BodyState ℚ :=
  { s with accumulated_force := s.accumulated_force + force }

/-- Model of BodyState::apply_accumulated_forces: when the accumulated
force is non-zero the velocity is integrated by runge_kutta with the
acceleration force over the raw mass field and the accumulator is
reset; the torque accumulator is treated analogously. -/
def BodyState.apply_accumulated_forces (s : BodyState ℚ) (time_step : ℚ) : BodyState ℚ :=
  let s :=
    if ¬ s.accumulated_force.is_zero then
      { s with velocity := runge_kutta s.velocity time_step (s.accumulated_force / s.mass),
               accumulated_force := Vector2.zero }
    else s
  if s.accumulated_torque ≠ 0 then
    { s with angular_velocity :=
               runge_kutta s.angular_velocity time_step (s.accumulated_torque / s.moment_of_inertia),
             accumulated_torque := 0 }
  else s

/-- Model of BodyState::move_by_velocity: position and orientation are
integrated by runge_kutta from velocity and angular velocity. -/
def BodyState.move_by_velocity (s : BodyState ℚ) (time_step : ℚ) : BodyState ℚ :=
  { s with position := runge_kutta s.position time_step s.velocity,
           orientation := runge_kutta s.orientation time_step s.angular_velocity }

/-- Model of the RigidBody enum of rigidbody.rs as seen by the
simulator: collision resolution reads a body only through the methods
state and center_of_mass, so the shape-specific geometry behind
center_of_mass (the position for a circle, the triangulated centroid
for a polygon) is carried here as a precomputed field. -/
structure RigidBody where
  state : BodyState ℚ
  center_of_mass : Vector2 ℚ
deriving DecidableEq, Repr

instance : Inhabited RigidBody := ⟨⟨default, Vector2.zero⟩⟩

/-- Model of BodyCollisionData from rigidbody/mod.rs. -/
structure BodyCollisionData (α : Type) where
  normal : Vector2 α
  penetration : α
  collision_points : List (Vector2 α)
deriving DecidableEq, Repr

/-- Model of BodyBodyCollision from rb_simulation.rs: a collision datum
together with the indexes of the two colliding bodies. -/
structure BodyBodyCollision where
  index_a : ℕ
  index_b : ℕ
  collision_data : BodyCollisionData ℚ
deriving DecidableEq, Repr

/-- Model of inverse_value from rb_simulation.rs: zero on the two
infinities (modelled by none), the reciprocal otherwise. -/
def inverse_value : Option ℚ → ℚ
  | none => 0
  | some v => 1 / v

/-- Model of scalar_vector_cross from rb_simulation.rs. -/
def scalar_vector_cross (scalar : ℚ) (vector : Vector2 ℚ) : Vector2 ℚ :=
  ⟨-scalar * vector.y, scalar * vector.x⟩

/-- Division of a finite f32 by a possibly infinite f32 (modelled by
none): a finite value divided by infinity is zero. Used on the guarded
dynamic branches, where the divisor is in fact finite. -/
def finiteDiv (x : ℚ) : Option ℚ → ℚ
  | none => 0
  | some v => x / v

/-- Model of the RigidBodiesConfig record of game/config.rs. -/
structure RigidBodiesConfig where
  elasticity_selection : SharedPropertySelection
  friction_selection : SharedPropertySelection
  iterations : ℕ
deriving DecidableEq, Repr

/-- Model of the GameConfig record of game/config.rs, restricted to the
fields the rigid-body simulator reads. -/
structure GameConfig where
  time_step : ℚ
  sub_steps : ℕ
  gravity : Vector2 ℚ
  rb_config : RigidBodiesConfig
deriving DecidableEq, Repr

/-- Model of RbSimulator from rb_simulation.rs. -/
structure RbSimulator where
  gravity : Vector2 ℚ
  elasticity_selection : SharedPropertySelection
  friction_selection : SharedPropertySelection
  current_time_step : ℚ
  iterations : ℕ
deriving DecidableEq, Repr

/-- Model of the associated constant RbSimulator::CORRECTION_FACTOR. -/
def RbSimulator.CORRECTION_FACTOR : ℚ := 2/10

/-- Model of the associated constant RbSimulator::SLOP. -/
def RbSimulator.SLOP : ℚ := 1

/-- Model of the shared_static_friction block of
RbSimulator::resolve_collisions, lines 257 to 262: the block computes
the friction selection of the two static friction values, discards the
result, and evaluates to the literal 0.0. -/
def sharedStaticFrictionBlock (sel : SharedPropertySelection)
    (friction_a friction_b : SharedProperty ℚ) : ℚ :=
  let _discarded := sel.select friction_a friction_b
  0

/-- Per-collision snapshot read by RbSimulator::resolve_collisions
before its loop over the contact points (lines 216 to 268): dynamic
flags, masses, velocities, inertia inverses, centers, shared material
properties, and the derived scalars. -/
structure ContactContext where
  index_a : ℕ
  index_b : ℕ
  a_is_dynamic : Bool
  b_is_dynamic : Bool
  mass_a : Option ℚ
  mass_b : Option ℚ
  velocity_a : Vector2 ℚ
  velocity_b : Vector2 ℚ
  angular_velocity_a : ℚ
  angular_velocity_b : ℚ
  inv_inertia_a : ℚ
  inv_inertia_b : ℚ
  center_a : Vector2 ℚ
  center_b : Vector2 ℚ
  shared_elasticity : ℚ
  shared_dynamic_friction : ℚ
  shared_static_friction : ℚ
  inv_masses : ℚ
  multiplier : ℚ
  correction : ℚ
  normal : Vector2 ℚ
deriving DecidableEq, Repr

/-- Model of the effective-mass closure of resolve_collisions (lines
285 to 292). -/
def effective_mass_formula (ctx : ContactContext)
    (radius_a radius_b dir : Vector2 ℚ) : ℚ :=
  let inertia_term_a := scalar_vector_cross (radius_a.cross dir) radius_a * ctx.inv_inertia_a
  let inertia_term_b := scalar_vector_cross (radius_b.cross dir) radius_b * ctx.inv_inertia_b
  ctx.inv_masses + (inertia_term_a + inertia_term_b).dot dir

/-- Model of the impulse application to body A inside the
per-contact-point loop of resolve_collisions (lines 315 to 328):
guarded by the dynamic flag of A, the impulses are scaled by the
distribution multiplier and the body at index_a gains the normal
impulse and loses the tangential one on its current velocity and
angular velocity. -/
def applyImpulseA (ctx : ContactContext) (radius_a tangent : Vector2 ℚ)
    (impulse_normal impulse_tangent a_mul : ℚ) (bodies : List RigidBody) : List RigidBody :=
  if ctx.a_is_dynamic then
    let impulse_normal := impulse_normal * a_mul
    let impulse_tangent := impulse_tangent * a_mul
    let cur := bodies.getD ctx.index_a default
    let st := cur.state
    let st := { st with
      velocity := st.velocity + ctx.normal * finiteDiv impulse_normal ctx.mass_a,
      angular_velocity := st.angular_velocity + radius_a.cross (ctx.normal * impulse_normal) * ctx.inv_inertia_a }
    let st := { st with
      velocity := st.velocity - tangent * finiteDiv impulse_tangent ctx.mass_a,
      angular_velocity := st.angular_velocity - radius_a.cross (tangent * impulse_tangent) * ctx.inv_inertia_a }
    bodies.set ctx.index_a { cur with state := st }
  else bodies

/-- Model of the impulse application to body B (lines 329 to 343), with
the signs of the normal and tangential contributions mirrored. -/
def applyImpulseB (ctx : ContactContext) (radius_b tangent : Vector2 ℚ)
    (impulse_normal impulse_tangent b_mul : ℚ) (bodies : List RigidBody) : List RigidBody :=
  if ctx.b_is_dynamic then
    let impulse_normal := impulse_normal * b_mul
    let impulse_tangent := impulse_tangent * b_mul
    let cur := bodies.getD ctx.index_b default
    let st := cur.state
    let st := { st with
      velocity := st.velocity - ctx.normal * finiteDiv impulse_normal ctx.mass_b,
      angular_velocity := st.angular_velocity - radius_b.cross (ctx.normal * impulse_normal) * ctx.inv_inertia_b }
    let st := { st with
      velocity := st.velocity + tangent * finiteDiv impulse_tangent ctx.mass_b,
      angular_velocity := st.angular_velocity + radius_b.cross (tangent * impulse_tangent) * ctx.inv_inertia_b }
    bodies.set ctx.index_b { cur with state := st }
  else bodies

/-- Model of the impulse computation and application for one contact
point (lines 283 to 343): the normal impulse from the effective-mass
formula with the restitution and correction terms, the tangential
impulse along the perpendicular of the normal, scaled by the shared
dynamic friction whenever its magnitude exceeds the shared static
friction times the normal impulse, and the application to both bodies
with the per-point distribution multipliers. -/
def applyImpulses (ctx : ContactContext) (radius_a radius_b relative_velocity : Vector2 ℚ)
    (bodies : List RigidBody) : List RigidBody :=
  let top_term := -(1 + ctx.shared_elasticity) * (relative_velocity.dot ctx.normal + ctx.correction)
  let impulse_normal := top_term / effective_mass_formula ctx radius_a radius_b ctx.normal * ctx.multiplier
  let tangent := ctx.normal.normal
  let impulse_tangent_raw :=
    relative_velocity.dot tangent / effective_mass_formula ctx radius_a radius_b tangent * ctx.multiplier
  let impulse_tangent :=
    if |impulse_tangent_raw| > ctx.shared_static_friction * impulse_normal then
      impulse_tangent_raw * ctx.shared_dynamic_friction
    else impulse_tangent_raw
  let muls : ℚ × ℚ :=
    match ctx.a_is_dynamic, ctx.b_is_dynamic with
    | true, true => (1/2, 1/2)
    | true, false => (1, 0)
    | false, true => (0, 1)
    | false, false => (0, 0)
  let bodies := applyImpulseA ctx radius_a tangent impulse_normal impulse_tangent muls.1 bodies
  applyImpulseB ctx radius_b tangent impulse_normal impulse_tangent muls.2 bodies

/-- Model of the body of the per-contact-point loop of
resolve_collisions (lines 269 to 343): the lever arms and the relative
surface velocity at the contact are computed from the snapshot,
separating contacts are skipped, and the impulses are computed and
applied. -/
def resolvePoint (ctx : ContactContext) (bodies : List RigidBody)
    (coll_point : Vector2 ℚ) : List RigidBody :=
  let radius_a := coll_point - ctx.center_a
  let radius_b := coll_point - ctx.center_b
  let relative_velocity :=
    (ctx.velocity_a + scalar_vector_cross ctx.angular_velocity_a radius_a)
      - (ctx.velocity_b + scalar_vector_cross ctx.angular_velocity_b radius_b)
  if relative_velocity.dot ctx.normal < 0 then bodies
  else applyImpulses ctx radius_a radius_b relative_velocity bodies

/-- Model of one iteration of the outer loop of
RbSimulator::resolve_collisions for a single collision record: the
static-static pair is skipped, the per-pair snapshot is read, and the
contact points are processed in order. -/
def RbSimulator.resolveOne (sim : RbSimulator) (bodies : List RigidBody)
    (coll : BodyBodyCollision) : List RigidBody :=
  let body_a := bodies.getD coll.index_a default
  let body_b := bodies.getD coll.index_b default
  let a_is_dynamic : Bool := body_a.state.behaviour = BodyBehaviour.Dynamic
  let b_is_dynamic : Bool := body_b.state.behaviour = BodyBehaviour.Dynamic
  if !a_is_dynamic && !b_is_dynamic then bodies
  else
    let ctx : ContactContext :=
      { index_a := coll.index_a
        index_b := coll.index_b
        a_is_dynamic := a_is_dynamic
        b_is_dynamic := b_is_dynamic
        mass_a := body_a.state.massFn
        mass_b := body_b.state.massFn
        velocity_a := body_a.state.velocity
        velocity_b := body_b.state.velocity
        angular_velocity_a := body_a.state.angular_velocity
        angular_velocity_b := body_b.state.angular_velocity
        inv_inertia_a := inverse_value body_a.state.moment_of_inertiaFn
        inv_inertia_b := inverse_value body_b.state.moment_of_inertiaFn
        center_a := body_a.center_of_mass
        center_b := body_b.center_of_mass
        shared_elasticity := sim.elasticity_selection.select body_a.state.elasticity body_b.state.elasticity
        shared_dynamic_friction := sim.friction_selection.select body_a.state.dynamic_friction body_b.state.dynamic_friction
        shared_static_friction := sharedStaticFrictionBlock sim.friction_selection body_a.state.static_friction body_b.state.static_friction
        inv_masses := inverse_value body_a.state.massFn + inverse_value body_b.state.massFn
        multiplier := 1 / (coll.collision_data.collision_points.length : ℚ)
        correction := RbSimulator.CORRECTION_FACTOR * max (coll.collision_data.penetration - RbSimulator.SLOP) 0 / sim.current_time_step
        normal := coll.collision_data.normal }
    coll.collision_data.collision_points.foldl (resolvePoint ctx) bodies

/-- Model of RbSimulator::resolve_collisions: the collision records are
processed sequentially. -/
def RbSimulator.resolve_collisions (sim : RbSimulator) (bodies : List RigidBody)
    (collisions : List BodyBodyCollision) : List RigidBody :=
  collisions.foldl sim.resolveOne bodies

/-- Model of RbSimulator::apply_gravity: every Dynamic body receives the
gravity force scaled by its mass and integrates its accumulated forces;
every other body is left untouched. -/
def RbSimulator.apply_gravity (sim : RbSimulator) (bodies : List RigidBody)
    (time_step : ℚ) : List RigidBody :=
  bodies.map fun body =>
    if body.state.behaviour = BodyBehaviour.Dynamic then
      { body with state := (body.state.add_force (sim.gravity * body.state.mass)).apply_accumulated_forces time_step }
    else body

/-- Model of line 129 of RbSimulator::step: the iteration count is set
to config.rb_config.iterations.min(1), the lesser of the configured
count and one. -/
def RbSimulator.effectiveIterations (config : GameConfig) : ℕ :=
  min config.rb_config.iterations 1

/-- Model of the resolution loop of RbSimulator::step (lines 129 and
134 to 138): the collision set is computed once and then
effectiveIterations passes of resolve_collisions run over it. -/
def RbSimulator.stepResolvePhase (sim : RbSimulator) (config : GameConfig)
    (bodies : List RigidBody) (collisions : List BodyBodyCollision) : List RigidBody :=
  (List.range (RbSimulator.effectiveIterations config)).foldl
    (fun bs _ => sim.resolve_collisions bs collisions) bodies

/-- Truncation of a rational toward zero, the rounding used by Rust
numeric casts from f32. -/
def ratTrunc (q : ℚ) : ℤ :=
  if 0 ≤ q then ⌊q⌋ else ⌈q⌉

/-- Model of the Rust cast from f32 to usize: truncation toward zero,
saturating at zero from below. The upper saturation point of usize is
astronomically beyond any grid handled here and is not modelled. -/
def ratToUsize (q : ℚ) : ℕ :=
  (max 0 (ratTrunc q)).toNat

/-- Model of the Rust cast from f32 to i32: truncation toward zero,
saturating at the two i32 bounds. -/
def ratToI32 (q : ℚ) : ℤ :=
  max (-(2 ^ 31 : ℤ)) (min ((2 ^ 31 : ℤ) - 1) (ratTrunc q))

/-- Model of the Rust cast from i32 to usize: two-complement wrap, so a
negative row or column becomes a huge index that lies outside every
actual grid (the underflow the source comments call intended). -/
def i32ToUsize (r : ℤ) : ℕ :=
  (r % (2 ^ 64 : ℤ)).toNat

/-- Model of the Rust f32 remainder operator: the remainder of the
truncating division. -/
def ratFMod (a b : ℚ) : ℚ :=
  a - b * (ratTrunc (a / b) : ℚ)

/-- Inclusive integer range from a to b as a list, empty when a exceeds
b; models the Rust iterator a..=b. -/
def intRange (a b : ℤ) : List ℤ :=
  (List.range (b + 1 - a).toNat).map (fun (k : ℕ) => a + (k : ℤ))

/-- Model of LookUp from utility/lookup.rs: a grid of cells stored row
by row, each cell a list of item handles, plus the world bounds and the
cell size fixed at construction. -/
structure LookUp (α : Type) where
  cells : List (List (List α))
  width : ℚ
  height : ℚ
  cell_size : ℚ
deriving DecidableEq, Repr

/-- Model of LookUp::new: the column count is the truncated quotient of
width by cell size, plus one when the remainder is positive; rows
likewise from the height. -/
def LookUp.new (α : Type) (width height cell_size : ℚ) : LookUp α :=
  let cols_count := ratToUsize (width / cell_size) + (if ratFMod width cell_size > 0 then 1 else 0)
  let rows_count := ratToUsize (height / cell_size) + (if ratFMod height cell_size > 0 then 1 else 0)
  { cells := List.replicate rows_count (List.replicate cols_count ([] : List α))
    width := width
    height := height
    cell_size := cell_size }

/-- Model of LookUp::clear: every cell emptied, the shape kept. -/
def LookUp.clear {α : Type} (l : LookUp α) : LookUp α :=
  { l with cells := l.cells.map (fun row => row.map (fun _ => ([] : List α))) }

/-- Cell grid resulting from the in-bounds branch of LookUp::insert:
the item is pushed onto the cell at the truncated coordinates, the push
silently skipped (by the no-op out-of-range List.set) when that cell
lies outside the allocated grid. -/
def LookUp.insertCells {α : Type} (l : LookUp α) (position : Vector2 ℚ) (item : α) :
    List (List (List α)) :=
  let col := ratToUsize (position.x / l.cell_size)
  let row := ratToUsize (position.y / l.cell_size)
  l.cells.set row ((l.cells.getD row []).set col
    ((l.cells.getD row []).getD col [] ++ [item]))

/-- Model of LookUp::insert: a position outside the world bounds is
silently discarded; otherwise the cell grid gains the item. -/
def LookUp.insert {α : Type} (l : LookUp α) (position : Vector2 ℚ) (item : α) : LookUp α :=
  if position.x < 0 ∨ position.x > l.width ∨ position.y < 0 ∨ position.y > l.height then l
  else { l with cells := l.insertCells position item }

/-- Content of the grid cell addressed with i32 indexes cast to usize,
as read by the block loop of LookUp::get_neighbors_in_radius: the cell
list when both lookups land inside the allocated grid, nothing
otherwise (negative indexes wrap to huge ones, the underflow the source
comments call intended). -/
def LookUp.cellAt {α : Type} (l : LookUp α) (row col : ℤ) : List α :=
  match l.cells[i32ToUsize row]? with
  | some r =>
    match r[i32ToUsize col]? with
    | some cell => cell
    | none => []
  | none => []

/-- Model of LookUp::get_neighbors_in_radius: empty outside the world
bounds; otherwise the concatenation, in row-major order, of the cells
in the square block of half-width off around the middle cell, where off
is the quotient of radius by cell size cast to i32. -/
def LookUp.get_neighbors_in_radius {α : Type} (l : LookUp α) (position : Vector2 ℚ)
    (radius : ℚ) : List α :=
  if position.x < 0 ∨ position.x > l.width ∨ position.y < 0 ∨ position.y > l.height then []
  else
    let off := ratToI32 (radius / l.cell_size)
    let mid_col := ratToI32 (position.x / l.cell_size)
    let mid_row := ratToI32 (position.y / l.cell_size)
    (intRange (mid_row - off) (mid_row + off)).flatMap fun row =>
      (intRange (mid_col - off) (mid_col + off)).flatMap fun col =>
        l.cellAt row col

/-- Model of LookUp::get_immediate_neighbors: the neighbors within one
cell size. -/
def LookUp.get_immediate_neighbors {α : Type} (l : LookUp α) (position : Vector2 ℚ) : List α :=
  l.get_neighbors_in_radius position l.cell_size

/-- Model of Particle from sph/particle.rs (the color field, irrelevant
to the simulation, is omitted). -/
structure Particle where
  position : Vector2 ℚ
  predicted_position : Vector2 ℚ
  velocity : Vector2 ℚ
  sph_density : ℚ
  mass : ℚ
  target_density : ℚ
  pressure_multiplier : ℚ
  body_collision_force_multiplier : ℚ
  accumulated_force : Vector2 ℚ
  id : ℕ
deriving DecidableEq, Repr

instance : Inhabited Particle :=
  ⟨⟨Vector2.zero, Vector2.zero, Vector2.zero, 0, 0, 0, 0, 0, Vector2.zero, 0⟩⟩

/-- Model of Particle::predict_position: the predicted position is the
runge_kutta integration of the position by the current velocity. -/
def Particle.predict_position (p : Particle) (delta_time : ℚ) : Particle :=
  { p with predicted_position := runge_kutta p.position delta_time p.velocity }

/-- Model of the Sph simulator state from sph/simulation.rs, restricted
to the fields the claims touch. -/
structure Sph where
  particles : List Particle
  lookup : LookUp ℕ
  gravity : Vector2 ℚ
  smoothing_radius : ℚ
  id_counter : ℕ
deriving DecidableEq, Repr

/-- Model of Sph::add_particle: the two draws of fastrand f32 are
passed explicitly; the supplied position is offset by each draw minus
one half per axis, the id counter is assigned and bumped, the particle
is appended and its index inserted into the lookup at the offset
position. -/
def Sph.add_particle (s : Sph) (particle : Particle) (rand_x rand_y : ℚ) : Sph :=
  let particle := { particle with
    position := particle.position + (⟨rand_x - 1/2, rand_y - 1/2⟩ : Vector2 ℚ) }
  let pos := particle.position
  let particle := { particle with id := s.id_counter }
  let particles := s.particles ++ [particle]
  let index := particles.length - 1
  { s with particles := particles
           id_counter := s.id_counter + 1
           lookup := s.lookup.insert pos index }

/-- Rebuild of a lookup from a particle list as done by
Sph::setup_lookup: clear, then insert every index at the predicted
position of the particle it denotes. -/
def rebuildLookup (lk : LookUp ℕ) (particles : List Particle) : LookUp ℕ :=
  (List.range particles.length).foldl
    (fun acc index => acc.insert (particles.getD index default).predicted_position index)
    lk.clear

/-- Model of Sph::setup_lookup. -/
def Sph.setup_lookup (s : Sph) : Sph :=
  { s with lookup := rebuildLookup s.lookup s.particles }

/-- Model of the opening of Sph::step (lines 296 to 304): first
setup_lookup runs, then every predicted position is recomputed; the
density and pressure passes that follow query the lookup produced
here. -/
def Sph.stepLookupPhase (s : Sph) (dt : ℚ) : Sph :=
  let s := s.setup_lookup
  { s with particles := s.particles.map (fun p => p.predict_position dt) }

/-- Model of CircleInner from rigidbody/circle.rs: a body state plus a
radius, over the reals because circle collision takes square roots. -/
structure CircleInner where
  state : BodyState ℝ
  radius : ℝ

section
open Classical

/-- Model of circle_circle_collision from rigidbody/collisions.rs: no
collision when the squared center distance exceeds the squared radius
sum; otherwise the normal is the normalized center-to-center vector,
the penetration is the radius sum minus the center distance, and the
single contact point sits along the normal. -/
noncomputable def circle_circle_collision (this other : CircleInner) :
    Option (BodyCollisionData ℝ) :=
  let this_position := this.state.position
  let other_position := other.state.position
  let this_to_other := other_position - this_position
  let radius_sum := this.radius + other.radius
  let radius_sum_squared := radius_sum ^ 2
  if radius_sum_squared < this_to_other.length_squared then none
  else
    let normal := this_to_other.normalized
    let dist := this_to_other.length
    let penetration := this.radius + other.radius - dist
    let collision_point := this_position + normal * (this.radius - penetration * (1/2 : ℝ))
    some { normal := normal
           penetration := penetration
           collision_points := [collision_point] }

end

/-- Configuration used in concrete instantiations: the default
GameConfig values of game/config.rs, whose rigid-body iteration count
is six. -/
def exampleConfig : GameConfig :=
  { time_step := 1/100
    sub_steps := 2
    gravity := ⟨0, 981⟩
    rb_config :=
      { elasticity_selection := SharedPropertySelection.Average
        friction_selection := SharedPropertySelection.Average
        iterations := 6 } }

/-- Simulator value used in concrete instantiations, mirroring
RbSimulator::new with the default gravity. -/
def exampleSim : RbSimulator :=
  { gravity := ⟨0, 981⟩
    elasticity_selection := SharedPropertySelection.Average
    friction_selection := SharedPropertySelection.Average
    current_time_step := 1/100
    iterations := 5 }

/-- Particle value mirroring Particle::new at the origin: unit mass and
multipliers, zero velocity and accumulators. -/
def baseParticle : Particle :=
  { position := Vector2.zero
    predicted_position := Vector2.zero
    velocity := Vector2.zero
    sph_density := 0
    mass := 1
    target_density := 1
    pressure_multiplier := 1
    body_collision_force_multiplier := 1
    accumulated_force := Vector2.zero
    id := 0 }

/-- Fluid state with no particles over a grid of 100 by 100 with the
cell size 24 (twice the default smoothing radius), as Sph::new builds. -/
def examplePond : Sph :=
  { particles := []
    lookup := LookUp.new ℕ 100 100 24
    gravity := ⟨0, 981⟩
    smoothing_radius := 12
    id_counter := 0 }

/-- Particle at position 10, 10 used to instantiate add_particle. -/
def exampleParticle : Particle :=
  { baseParticle with position := ⟨10, 10⟩ }

/-- Particle whose predicted position from the previous sub-step, 1 1,
lies far from the prediction the next sub-step computes from its
position 18 18 and zero velocity. -/
def c4Particle : Particle :=
  { baseParticle with position := ⟨18, 18⟩, predicted_position := ⟨1, 1⟩ }

/-- Fluid state holding only c4Particle over a 4 by 4 grid of cell
size 5. -/
def c4State : Sph :=
  { particles := [c4Particle]
    lookup := LookUp.new ℕ 20 20 5
    gravity := ⟨0, 981⟩
    smoothing_radius := 12
    id_counter := 1 }

/-- Static body used in concrete instantiations, with nonzero velocity
and angular velocity to make invariance observable. -/
def exampleStaticBody : RigidBody :=
  { state :=
      { position := ⟨5, 5⟩
        velocity := ⟨1, 2⟩
        angular_velocity := 3
        orientation := 0
        behaviour := BodyBehaviour.Static
        mass := 1000
        moment_of_inertia := 1000
        elasticity := SharedProperty.Value (4/10)
        static_friction := SharedProperty.Value (3/10)
        dynamic_friction := SharedProperty.Value (2/10)
        accumulated_force := Vector2.zero
        accumulated_torque := 0 }
    center_of_mass := ⟨5, 5⟩ }

/-- Dynamic body used in concrete instantiations. -/
def exampleDynamicBody : RigidBody :=
  { state :=
      { position := ⟨5, 3⟩
        velocity := ⟨0, 5⟩
        angular_velocity := 0
        orientation := 0
        behaviour := BodyBehaviour.Dynamic
        mass := 1000
        moment_of_inertia := 1000
        elasticity := SharedProperty.Value (4/10)
        static_friction := SharedProperty.Value (3/10)
        dynamic_friction := SharedProperty.Value (2/10)
        accumulated_force := Vector2.zero
        accumulated_torque := 0 }
    center_of_mass := ⟨5, 3⟩ }

/-- Collision record between the two example bodies. -/
def exampleCollision : BodyBodyCollision :=
  { index_a := 1
    index_b := 0
    collision_data :=
      { normal := ⟨0, 1⟩
        penetration := 1/2
        collision_points := [⟨5, 4⟩] } }

/-- Dynamic body A for the friction scenario: mass 2, unit moment of
inertia, moving with velocity 1, 3 into the static body below, with
static friction one half and dynamic friction one quarter; its center
of mass coincides with the single contact point so that no angular
terms arise. -/
def c3BodyA : RigidBody :=
  { state :=
      { position := ⟨0, 0⟩
        velocity := ⟨1, 3⟩
        angular_velocity := 0
        orientation := 0
        behaviour := BodyBehaviour.Dynamic
        mass := 2
        moment_of_inertia := 1
        elasticity := SharedProperty.Pass
        static_friction := SharedProperty.Value (1/2)
        dynamic_friction := SharedProperty.Value (1/4)
        accumulated_force := Vector2.zero
        accumulated_torque := 0 }
    center_of_mass := ⟨0, 0⟩ }

/-- Static body B for the friction scenario, with the same material
properties as A and its center of mass at the contact point. -/
def c3BodyB : RigidBody :=
  { state :=
      { position := ⟨0, 2⟩
        velocity := ⟨0, 0⟩
        angular_velocity := 0
        orientation := 0
        behaviour := BodyBehaviour.Static
        mass := 5
        moment_of_inertia := 1
        elasticity := SharedProperty.Pass
        static_friction := SharedProperty.Value (1/2)
        dynamic_friction := SharedProperty.Value (1/4)
        accumulated_force := Vector2.zero
        accumulated_torque := 0 }
    center_of_mass := ⟨0, 0⟩ }

/-- Collision record for the friction scenario: normal 0, 1 away from
A, zero penetration, single contact point at the origin. -/
def c3Collision : BodyBodyCollision :=
  { index_a := 0
    index_b := 1
    collision_data :=
      { normal := ⟨0, 1⟩
        penetration := 0
        collision_points := [⟨0, 0⟩] } }

/-- Body state over the reals with the default mass of new bodies, used
to build concrete circles. -/
def baseStateR : BodyState ℝ :=
  { position := Vector2.zero
    velocity := Vector2.zero
    angular_velocity := 0
    orientation := 0
    behaviour := BodyBehaviour.Dynamic
    mass := 1000
    moment_of_inertia := 1000
    elasticity := SharedProperty.Value 0
    static_friction := SharedProperty.Value 0
    dynamic_friction := SharedProperty.Value 0
    accumulated_force := Vector2.zero
    accumulated_torque := 0 }

/-- Circle of radius one at the origin. -/
def exampleCircleA : CircleInner :=
  { state := { baseStateR with position := ⟨0, 0⟩ }
    radius := 1 }

/-- Circle of radius two centered at 3, 0, exactly tangent to
exampleCircleA. -/
def exampleCircleB : CircleInner :=
  { state := { baseStateR with position := ⟨3, 0⟩ }
    radius := 2 }

/-- Grid of 4 by 4 cells of size 5 over a 20 by 20 world, used to
instantiate the lookup containment statement. -/
def c8Lookup : LookUp ℕ := LookUp.new ℕ 20 20 5

/-- Insertion position near the lower corner of c8Lookup. -/
def c8P : Vector2 ℚ := ⟨1/10, 1/10⟩

/-- Query position more than twice the cell size away from c8P on both
axes. -/
def c8Q : Vector2 ℚ := ⟨11, 12⟩

/-- Items of the cells in the row and column ranges clipped to the
allocated grid, traversed in row-major order; the reference reading of
a square block of cells (clipped to the grid). -/
def clippedBlockItems {α : Type} (l : LookUp α) (r1 r2 c1 c2 : ℤ) : List α :=
  (intRange (max r1 0) (min r2 ((l.cells.length : ℤ) - 1))).flatMap fun row =>
    (intRange (max c1 0) (min c2 (((l.cells.getD row.toNat []).length : ℤ) - 1))).flatMap
      fun col => (l.cells.getD row.toNat []).getD col.toNat []

/-- Modelled from the spec sentence for the neighbor query: the items
in the square block of half-width the CEILING of radius over cell size,
centered on the cell containing the position, clipped to the grid, and
empty out of bounds. This is the claimed behaviour, compared against
the source function which truncates the quotient instead. -/
def claimedBlockItems {α : Type} (l : LookUp α) (position : Vector2 ℚ) (radius : ℚ) :
    List α :=
  if position.x < 0 ∨ position.x > l.width ∨ position.y < 0 ∨ position.y > l.height then []
  else
    let off := ⌈radius / l.cell_size⌉
    let mid_col := ⌊position.x / l.cell_size⌋
    let mid_row := ⌊position.y / l.cell_size⌋
    clippedBlockItems l (mid_row - off) (mid_row + off) (mid_col - off) (mid_col + off)

/-- Lookup with the handle 7 filed under the cell of the position
25/2, 5/2 (column 2, row 0) of a 4 by 4 grid of cell size 5. -/
def c7Lookup : LookUp ℕ := (LookUp.new ℕ 20 20 5).insert ⟨25/2, 5/2⟩ 7

/-! ## Theorems -/

/-- C6: for every selection rule, select of two Pass properties gives
the type default (zero for f32), select of a Value and a Pass on either
side gives the value, and the Average of the values two and four is
three. -/
theorem c6_shared_property_blending (sel : SharedPropertySelection) (v : ℚ) :
    sel.select SharedProperty.Pass SharedProperty.Pass = 0 ∧
    sel.select (SharedProperty.Value v) SharedProperty.Pass = v ∧
    sel.select SharedProperty.Pass (SharedProperty.Value v) = v ∧
    SharedPropertySelection.Average.select (SharedProperty.Value 2) (SharedProperty.Value 4) = 3 := by
  refine ⟨?_, ?_, ?_, ?_⟩ <;> cases sel <;> simp [SharedPropertySelection.select] <;> norm_num

/-- C9: the integrator is not the classical fourth-order Runge-Kutta
update for a constant rate of change: it returns the current value plus
the rate times the polynomial step + step^2/2 + step^3/6 + step^4/24,
so at current value zero, step one and rate one it returns 41/24 and
not 0 + 1 * 1. -/
theorem c9_runge_kutta_constant_rate :
    (∀ c s r : ℚ, runge_kutta c s r = c + r * (s + s^2/2 + s^3/6 + s^4/24)) ∧
    runge_kutta (0:ℚ) 1 1 = 41/24 ∧ (41/24 : ℚ) ≠ 0 + 1 * 1 := by
  have key : ∀ c s r : ℚ, runge_kutta c s r = c + r * (s + s^2/2 + s^3/6 + s^4/24) := by
    intro c s r
    simp only [runge_kutta]
    ring
  refine ⟨key, ?_, by norm_num⟩
  rw [key]
  norm_num

/-- C2: the rigid-body step clamps the configured resolution iteration
count by min with one, so whenever at least one iteration is configured
exactly one pass of impulse resolution runs over the collision set. -/
theorem c2_resolution_single_pass (sim : RbSimulator) (config : GameConfig)
    (bodies : List RigidBody) (collisions : List BodyBodyCollision)
    (h : 1 ≤ config.rb_config.iterations) :
    RbSimulator.effectiveIterations config = 1 ∧
    sim.stepResolvePhase config bodies collisions = sim.resolve_collisions bodies collisions := by
  have h1 : RbSimulator.effectiveIterations config = 1 :=
    Nat.min_eq_right h
  refine ⟨h1, ?_⟩
  simp [RbSimulator.stepResolvePhase, h1, List.range_succ]

/-- Witness for c2_resolution_single_pass at the default configuration
with six configured iterations. -/
theorem c2_resolution_single_pass_witness :
    1 ≤ exampleConfig.rb_config.iterations ∧
    (RbSimulator.effectiveIterations exampleConfig = 1 ∧
      exampleSim.stepResolvePhase exampleConfig [] [] = exampleSim.resolve_collisions [] []) :=
  ⟨by decide, c2_resolution_single_pass exampleSim exampleConfig [] [] (by decide)⟩

theorem Vector2.add_def {α : Type} [Add α] (a b : Vector2 α) :
    a + b = ⟨a.x + b.x, a.y + b.y⟩ := rfl

theorem Vector2.sub_def {α : Type} [Sub α] (a b : Vector2 α) :
    a - b = ⟨a.x - b.x, a.y - b.y⟩ := rfl

theorem Vector2.smul_def {α : Type} [Mul α] (v : Vector2 α) (s : α) :
    v * s = ⟨v.x * s, v.y * s⟩ := rfl

theorem Vector2.sdiv_def {α : Type} [Div α] (v : Vector2 α) (s : α) :
    v / s = ⟨v.x / s, v.y / s⟩ := rfl

@[simp] theorem Vector2.add_x {α : Type} [Add α] (a b : Vector2 α) : (a + b).x = a.x + b.x := rfl

@[simp] theorem Vector2.add_y {α : Type} [Add α] (a b : Vector2 α) : (a + b).y = a.y + b.y := rfl

@[simp] theorem Vector2.sub_x {α : Type} [Sub α] (a b : Vector2 α) : (a - b).x = a.x - b.x := rfl

@[simp] theorem Vector2.sub_y {α : Type} [Sub α] (a b : Vector2 α) : (a - b).y = a.y - b.y := rfl

@[simp] theorem Vector2.smul_x {α : Type} [Mul α] (v : Vector2 α) (s : α) : (v * s).x = v.x * s := rfl

@[simp] theorem Vector2.smul_y {α : Type} [Mul α] (v : Vector2 α) (s : α) : (v * s).y = v.y * s := rfl

@[simp] theorem Vector2.sdiv_x {α : Type} [Div α] (v : Vector2 α) (s : α) : (v / s).x = v.x / s := rfl

@[simp] theorem Vector2.sdiv_y {α : Type} [Div α] (v : Vector2 α) (s : α) : (v / s).y = v.y / s := rfl

theorem add_particle_stored (s : Sph) (p : Particle) (rx ry : ℚ) :
    (s.add_particle p rx ry).particles.getD s.particles.length default =
      { p with position := p.position + (⟨rx - 1/2, ry - 1/2⟩ : Vector2 ℚ), id := s.id_counter } := by
  simp [Sph.add_particle, List.getD_eq_getElem?_getD, List.getElem?_concat_length]

/-- C10 amended: add_particle offsets the supplied position by an
independent draw minus one half per axis, with each draw in the
interval from zero inclusive to one exclusive, so the stored position
differs from the supplied one by at least minus one half inclusive and
strictly less than one half per axis, and two calls with identical
arguments but different draws store different positions. -/
theorem c10_add_particle_offset (s : Sph) (p : Particle) (rx ry rx2 ry2 : ℚ)
    (hx0 : 0 ≤ rx) (hx1 : rx < 1) (hy0 : 0 ≤ ry) (hy1 : ry < 1)
    (hne : rx2 ≠ rx) :
    ((s.add_particle p rx ry).particles.getD s.particles.length default).position
      = p.position + (⟨rx - 1/2, ry - 1/2⟩ : Vector2 ℚ) ∧
    (-(1/2) ≤ rx - 1/2 ∧ rx - 1/2 < 1/2) ∧
    (-(1/2) ≤ ry - 1/2 ∧ ry - 1/2 < 1/2) ∧
    ((s.add_particle p rx2 ry2).particles.getD s.particles.length default).position ≠
      ((s.add_particle p rx ry).particles.getD s.particles.length default).position := by
  refine ⟨by rw [add_particle_stored], ⟨by linarith, by linarith⟩, ⟨by linarith, by linarith⟩, ?_⟩
  rw [add_particle_stored, add_particle_stored]
  intro hEq
  have hx := congrArg Vector2.x hEq
  simp at hx
  exact hne (by linarith)

/-- Witness for c10_add_particle_offset at concrete draws one quarter,
three quarters, zero and zero. -/
theorem c10_add_particle_offset_witness :
    (0 ≤ (1/4 : ℚ) ∧ (1/4 : ℚ) < 1 ∧ 0 ≤ (3/4 : ℚ) ∧ (3/4 : ℚ) < 1 ∧ (0 : ℚ) ≠ 1/4) ∧
    (((examplePond.add_particle exampleParticle (1/4) (3/4)).particles.getD
        examplePond.particles.length default).position
      = exampleParticle.position + (⟨1/4 - 1/2, 3/4 - 1/2⟩ : Vector2 ℚ) ∧
    (-(1/2) ≤ (1/4 : ℚ) - 1/2 ∧ (1/4 : ℚ) - 1/2 < 1/2) ∧
    (-(1/2) ≤ (3/4 : ℚ) - 1/2 ∧ (3/4 : ℚ) - 1/2 < 1/2) ∧
    ((examplePond.add_particle exampleParticle 0 0).particles.getD
        examplePond.particles.length default).position ≠
      ((examplePond.add_particle exampleParticle (1/4) (3/4)).particles.getD
        examplePond.particles.length default).position) :=
  ⟨⟨by norm_num, by norm_num, by norm_num, by norm_num, by norm_num⟩,
    c10_add_particle_offset examplePond exampleParticle (1/4) (3/4) 0 0
      (by norm_num) (by norm_num) (by norm_num) (by norm_num) (by norm_num)⟩

/-- C10 counterexample: with both draws equal to zero (a value fastrand
f32 can return), the particle supplied at position 10, 10 is stored at
19/2, 19/2, whose per-axis distance from the supplied position is
exactly one half and not strictly less than one half. -/
theorem c10_counterexample :
    ((examplePond.add_particle exampleParticle 0 0).particles.getD 0 default).position
      = (⟨19/2, 19/2⟩ : Vector2 ℚ) ∧
    ¬ |(((examplePond.add_particle exampleParticle 0 0).particles.getD 0 default).position.x
        - exampleParticle.position.x)| < 1/2 := by
  have h0 : examplePond.particles.length = 0 := rfl
  have h := add_particle_stored examplePond exampleParticle 0 0
  rw [h0] at h
  rw [h]
  constructor
  · simp [exampleParticle, baseParticle, Vector2.add_def, Vector2.mk.injEq]
    norm_num
  · simp [exampleParticle, baseParticle]
    rw [abs_of_nonneg]
    all_goals norm_num

/-- C4 amended: in every fluid sub-step the Lookup is rebuilt first,
from the predicted positions left by the previous sub-step, and each
predicted position is recomputed only afterwards, so the lookup the
density and pressure passes query is keyed by the previous sub-step
predictions and does not depend on the freshly computed ones. -/
theorem c4_lookup_from_previous_predictions (s : Sph) (dt dt2 : ℚ) :
    (s.stepLookupPhase dt).lookup = rebuildLookup s.lookup s.particles ∧
    (s.stepLookupPhase dt).particles = s.particles.map (fun p => p.predict_position dt) ∧
    (s.stepLookupPhase dt).lookup = (s.stepLookupPhase dt2).lookup :=
  ⟨rfl, rfl, rfl⟩

theorem c4_state_lookup_eval :
    (c4State.stepLookupPhase (1/100)).lookup.cells =
      [[[0], [], [], []], [[], [], [], []], [[], [], [], []], [[], [], [], []]] := by
  show (rebuildLookup c4State.lookup c4State.particles).cells = _
  norm_num [rebuildLookup, c4State, c4Particle, baseParticle, LookUp.new, LookUp.clear,
    LookUp.insert, LookUp.insertCells, ratToUsize, ratTrunc, ratFMod, List.range_succ]
  decide

theorem c4_fresh_particles_eval :
    (c4State.stepLookupPhase (1/100)).particles =
      [{ c4Particle with predicted_position := ⟨18, 18⟩ }] := by
  show (c4State.particles.map (fun p => p.predict_position (1/100))) = _
  norm_num [c4State, c4Particle, baseParticle, Particle.predict_position, runge_kutta,
    Vector2.zero, Vector2.add_def, Vector2.smul_def, Vector2.mk.injEq, Particle.mk.injEq]

theorem c4_rebuild_fresh_eval :
    (rebuildLookup c4State.lookup ((c4State.stepLookupPhase (1/100)).particles)).cells =
      [[[], [], [], []], [[], [], [], []], [[], [], [], []], [[], [], [], [0]]] := by
  rw [c4_fresh_particles_eval]
  norm_num [rebuildLookup, c4State, c4Particle, baseParticle, LookUp.new, LookUp.clear,
    LookUp.insert, LookUp.insertCells, ratToUsize, ratTrunc, ratFMod, List.range_succ]
  decide

theorem c4_state_lookup_full_eval :
    (c4State.stepLookupPhase (1/100)).lookup =
      (⟨[[[0], [], [], []], [[], [], [], []], [[], [], [], []], [[], [], [], []]],
        20, 20, 5⟩ : LookUp ℕ) := by
  show rebuildLookup c4State.lookup c4State.particles = _
  norm_num [rebuildLookup, c4State, c4Particle, baseParticle, LookUp.new, LookUp.clear,
    LookUp.insert, LookUp.insertCells, ratToUsize, ratTrunc, ratFMod, List.range_succ, LookUp.mk.injEq]
  decide

theorem c4_neighbors_eval :
    (c4State.stepLookupPhase (1/100)).lookup.get_immediate_neighbors
      (((c4State.stepLookupPhase (1/100)).particles.getD 0 default).predicted_position)
      = ([] : List ℕ) := by
  have hp : ((c4State.stepLookupPhase (1/100)).particles.getD 0 default).predicted_position
      = (⟨18, 18⟩ : Vector2 ℚ) := by
    rw [c4_fresh_particles_eval]; rfl
  rw [hp, c4_state_lookup_full_eval]
  simp only [LookUp.get_immediate_neighbors, LookUp.get_neighbors_in_radius]
  rw [if_neg (by norm_num)]
  have h1 : ratToI32 ((5 : ℚ) / 5) = 1 := by norm_num [ratToI32, ratTrunc]
  have h2 : ratToI32 ((18 : ℚ) / 5) = 3 := by norm_num [ratToI32, ratTrunc]
  simp only [h1, h2]
  decide

/-- C4 counterexample: for the one-particle state c4State the lookup
built by the sub-step differs from a lookup built from the freshly
computed predicted positions, and a neighbor query at the fresh
predicted position of the particle does not return the particle. -/
theorem c4_counterexample :
    (c4State.stepLookupPhase (1/100)).lookup.cells ≠
      (rebuildLookup c4State.lookup ((c4State.stepLookupPhase (1/100)).particles)).cells ∧
    (0 : ℕ) ∉ (c4State.stepLookupPhase (1/100)).lookup.get_immediate_neighbors
      (((c4State.stepLookupPhase (1/100)).particles.getD 0 default).predicted_position) := by
  constructor
  · rw [c4_state_lookup_eval, c4_rebuild_fresh_eval]
    decide
  · rw [c4_neighbors_eval]
    simp

theorem applyImpulseA_get (ctx : ContactContext) (radius_a tangent : Vector2 ℚ)
    (jn jt m : ℚ) (bodies : List RigidBody) (i : ℕ)
    (hA2 : ctx.a_is_dynamic = true → ctx.index_a ≠ i) :
    (applyImpulseA ctx radius_a tangent jn jt m bodies)[i]? = bodies[i]? := by
  unfold applyImpulseA
  split
  next h => exact List.getElem?_set_ne (hA2 h)
  next h => rfl

theorem applyImpulseB_get (ctx : ContactContext) (radius_b tangent : Vector2 ℚ)
    (jn jt m : ℚ) (bodies : List RigidBody) (i : ℕ)
    (hB2 : ctx.b_is_dynamic = true → ctx.index_b ≠ i) :
    (applyImpulseB ctx radius_b tangent jn jt m bodies)[i]? = bodies[i]? := by
  unfold applyImpulseB
  split
  next h => exact List.getElem?_set_ne (hB2 h)
  next h => rfl

theorem resolvePoint_get_static (ctx : ContactContext) (i : ℕ)
    (ha : ctx.index_a = i → ctx.a_is_dynamic = false)
    (hb : ctx.index_b = i → ctx.b_is_dynamic = false)
    (bodies : List RigidBody) (pt : Vector2 ℚ) :
    (resolvePoint ctx bodies pt)[i]? = bodies[i]? := by
  have hA2 : ctx.a_is_dynamic = true → ctx.index_a ≠ i := by
    intro h hEq; rw [ha hEq] at h; cases h
  have hB2 : ctx.b_is_dynamic = true → ctx.index_b ≠ i := by
    intro h hEq; rw [hb hEq] at h; cases h
  unfold resolvePoint
  dsimp only
  split
  · rfl
  · rw [applyImpulses, applyImpulseB_get _ _ _ _ _ _ _ _ hB2, applyImpulseA_get _ _ _ _ _ _ _ _ hA2]

theorem foldl_resolvePoint_get_static (ctx : ContactContext) (i : ℕ)
    (ha : ctx.index_a = i → ctx.a_is_dynamic = false)
    (hb : ctx.index_b = i → ctx.b_is_dynamic = false) :
    ∀ (pts : List (Vector2 ℚ)) (bodies : List RigidBody),
      (pts.foldl (resolvePoint ctx) bodies)[i]? = bodies[i]? := by
  intro pts
  induction pts with
  | nil => intro bodies; rfl
  | cons p ps ih =>
    intro bodies
    rw [List.foldl_cons, ih, resolvePoint_get_static ctx i ha hb]

theorem resolveOne_get_static (sim : RbSimulator) (i : ℕ) (b : RigidBody)
    (hs : b.state.behaviour = BodyBehaviour.Static)
    (bodies : List RigidBody) (coll : BodyBodyCollision)
    (hget : bodies[i]? = some b) :
    (sim.resolveOne bodies coll)[i]? = some b := by
  unfold RbSimulator.resolveOne
  dsimp only
  split
  · exact hget
  · rw [foldl_resolvePoint_get_static]
    · exact hget
    · intro hEq
      simp only at hEq
      simp [hEq, List.getD_eq_getElem?_getD, hget, hs]
    · intro hEq
      simp only at hEq
      simp [hEq, List.getD_eq_getElem?_getD, hget, hs]

theorem resolve_collisions_get_static (sim : RbSimulator) (i : ℕ) (b : RigidBody)
    (hs : b.state.behaviour = BodyBehaviour.Static) :
    ∀ (collisions : List BodyBodyCollision) (bodies : List RigidBody),
      bodies[i]? = some b → (sim.resolve_collisions bodies collisions)[i]? = some b := by
  intro collisions
  induction collisions with
  | nil => intro bodies h; exact h
  | cons c cs ih =>
    intro bodies h
    rw [RbSimulator.resolve_collisions, List.foldl_cons]
    exact ih _ (resolveOne_get_static sim i b hs bodies c h)

/-- C1: a body whose behaviour is Static is returned completely
unchanged, in particular with unchanged velocity, angular velocity and
position, both by gravity application and by impulse resolution, for
every body list and every list of collision records. -/
theorem c1_static_invariance (sim : RbSimulator) (time_step : ℚ)
    (bodies : List RigidBody) (collisions : List BodyBodyCollision) (i : ℕ) (b : RigidBody)
    (hget : bodies[i]? = some b) (hs : b.state.behaviour = BodyBehaviour.Static) :
    (sim.apply_gravity bodies time_step)[i]? = some b ∧
    (sim.resolve_collisions bodies collisions)[i]? = some b := by
  constructor
  · rw [RbSimulator.apply_gravity, List.getElem?_map, hget]
    simp [hs]
  · exact resolve_collisions_get_static sim i b hs collisions bodies hget

/-- Witness for c1_static_invariance on a two-body list with one
collision record touching the static body. -/
theorem c1_static_invariance_witness :
    (([exampleStaticBody, exampleDynamicBody] : List RigidBody)[0]? = some exampleStaticBody ∧
      exampleStaticBody.state.behaviour = BodyBehaviour.Static) ∧
    ((exampleSim.apply_gravity [exampleStaticBody, exampleDynamicBody] (1/100))[0]? = some exampleStaticBody ∧
      (exampleSim.resolve_collisions [exampleStaticBody, exampleDynamicBody] [exampleCollision])[0]? = some exampleStaticBody) :=
  ⟨⟨rfl, rfl⟩,
    c1_static_invariance exampleSim (1/100) [exampleStaticBody, exampleDynamicBody]
      [exampleCollision] 0 exampleStaticBody rfl rfl⟩

/-- C3: the static-friction threshold of the tangential impulse is the
hardwired literal zero, not the configured selection of the two bodies
static friction values: the block computes the Average selection of the
two values one half, which is one half, and discards it for zero; on
the concrete scenario of c3BodyA striking c3BodyB the tangential
impulse of magnitude two is attenuated by the dynamic friction one
quarter, giving the final velocity 3/4, 0, although two does not exceed
the selected static friction one half times the normal impulse
magnitude six, so under the claimed rule it would have been applied
unattenuated. -/
theorem c3_static_friction_discarded :
    sharedStaticFrictionBlock SharedPropertySelection.Average
      (SharedProperty.Value (1/2)) (SharedProperty.Value (1/2)) = 0 ∧
    SharedPropertySelection.Average.select
      (SharedProperty.Value (1/2)) (SharedProperty.Value (1/2)) = 1/2 ∧
    |(-2 : ℚ)| ≤ SharedPropertySelection.Average.select
      (SharedProperty.Value (1/2)) (SharedProperty.Value (1/2)) * |(-6 : ℚ)| ∧
    ((exampleSim.resolveOne [c3BodyA, c3BodyB] c3Collision).getD 0 default).state.velocity
      = (⟨3/4, 0⟩ : Vector2 ℚ) := by
  refine ⟨rfl, by norm_num [SharedPropertySelection.select], ?_, ?_⟩
  · rw [abs_neg, abs_neg, abs_of_nonneg (by norm_num : (0:ℚ) ≤ 2),
      abs_of_nonneg (by norm_num : (0:ℚ) ≤ 6)]
    norm_num [SharedPropertySelection.select]
  · norm_num [RbSimulator.resolveOne, resolvePoint, applyImpulses, applyImpulseA, applyImpulseB,
      effective_mass_formula, scalar_vector_cross, sharedStaticFrictionBlock,
      SharedPropertySelection.select, inverse_value, finiteDiv, BodyState.massFn,
      BodyState.moment_of_inertiaFn, RbSimulator.CORRECTION_FACTOR, RbSimulator.SLOP,
      exampleSim, c3BodyA, c3BodyB, c3Collision, Vector2.dot, Vector2.cross, Vector2.normal,
      Vector2.add_def, Vector2.sub_def, Vector2.smul_def, Vector2.zero, Vector2.mk.injEq]
    simp only [show (if BodyBehaviour.Dynamic = BodyBehaviour.Static then (none : Option ℚ)
        else some 2) = some 2 from rfl,
      show decide (BodyBehaviour.Static = BodyBehaviour.Dynamic) = false from rfl]
    norm_num

theorem length_squared_nonneg (v : Vector2 ℝ) : 0 ≤ v.length_squared := by
  unfold Vector2.length_squared
  have hx := mul_self_nonneg v.x
  have hy := mul_self_nonneg v.y
  linarith

theorem length_squared_pos (v : Vector2 ℝ) (hv : v ≠ Vector2.zero) :
    0 < v.length_squared := by
  rcases lt_or_eq_of_le (length_squared_nonneg v) with h | h
  · exact h
  exfalso
  apply hv
  unfold Vector2.length_squared at h
  have hx0 : v.x = 0 := by nlinarith [mul_self_nonneg v.x, mul_self_nonneg v.y]
  have hy0 : v.y = 0 := by nlinarith [mul_self_nonneg v.x, mul_self_nonneg v.y]
  show v = Vector2.zero
  unfold Vector2.zero
  cases v
  simp only [Vector2.mk.injEq]
  exact ⟨hx0, hy0⟩

theorem length_le_iff (v : Vector2 ℝ) (r : ℝ) (hr : 0 ≤ r) :
    v.length ≤ r ↔ v.length_squared ≤ r ^ 2 := by
  unfold Vector2.length
  constructor
  · intro h
    calc v.length_squared = Real.sqrt v.length_squared ^ 2 :=
          (Real.sq_sqrt (length_squared_nonneg v)).symm
      _ ≤ r ^ 2 := pow_le_pow_left₀ (Real.sqrt_nonneg _) h 2
  · intro h
    calc Real.sqrt v.length_squared ≤ Real.sqrt (r ^ 2) := Real.sqrt_le_sqrt h
      _ = r := Real.sqrt_sq hr

theorem length_normalized (v : Vector2 ℝ) (hv : v ≠ Vector2.zero) :
    v.normalized.length = 1 := by
  have hpos : 0 < v.length_squared := length_squared_pos v hv
  have hlen : v.length * v.length = v.length_squared :=
    Real.mul_self_sqrt (length_squared_nonneg v)
  have hinner : (Vector2.normalized v).length_squared = 1 := by
    unfold Vector2.normalized Vector2.length_squared
    dsimp only
    rw [div_mul_div_comm, div_mul_div_comm, div_add_div_same, hlen]
    exact div_self (ne_of_gt hpos)
  show Real.sqrt (Vector2.length_squared _) = 1
  rw [hinner]
  exact Real.sqrt_one

theorem Vector2.eq_of_sub_eq_zero {v w : Vector2 ℝ} (h : v - w = Vector2.zero) : v = w := by
  cases v; cases w
  simp only [Vector2.sub_def, Vector2.zero, Vector2.mk.injEq] at h ⊢
  exact ⟨by linarith [h.1], by linarith [h.2]⟩

theorem circle_circle_collision_data (a b : CircleInner) (data : BodyCollisionData ℝ)
    (h : circle_circle_collision a b = some data) :
    data.normal = (b.state.position - a.state.position).normalized ∧
    data.penetration = a.radius + b.radius - (b.state.position - a.state.position).length := by
  unfold circle_circle_collision at h
  dsimp only at h
  split at h
  · exact Option.noConfusion h
  · rw [Option.some.injEq] at h
    rw [← h]
    exact ⟨rfl, rfl⟩

/-- C5: for any two circles with nonnegative radius sum, the detector
reports a collision exactly when the center distance is at most the
radius sum; at exact tangency the reported penetration is zero; and
when the centers are distinct the reported normal is the normalized
center-to-center vector from the first circle to the second, of unit
length. -/
theorem c5_circle_circle_exactness (a b : CircleInner)
    (hr : 0 ≤ a.radius + b.radius) :
    ((circle_circle_collision a b).isSome = true ↔
      (b.state.position - a.state.position).length ≤ a.radius + b.radius) ∧
    (∀ data, circle_circle_collision a b = some data →
      ((b.state.position - a.state.position).length = a.radius + b.radius →
        data.penetration = 0) ∧
      (b.state.position ≠ a.state.position →
        data.normal = (b.state.position - a.state.position).normalized ∧
        data.normal.length = 1)) := by
  constructor
  · rw [length_le_iff _ _ hr]
    unfold circle_circle_collision
    dsimp only
    split
    next h => exact iff_of_false (by simp) (not_le.mpr h)
    next h => exact iff_of_true (by simp) (not_lt.mp h)
  · intro data h
    obtain ⟨hn, hp⟩ := circle_circle_collision_data a b data h
    constructor
    · intro hd
      rw [hp, hd]
      ring
    · intro hne
      have hvne : b.state.position - a.state.position ≠ Vector2.zero := by
        intro h0
        exact hne (Vector2.eq_of_sub_eq_zero h0)
      exact ⟨hn, by rw [hn]; exact length_normalized _ hvne⟩

/-- Witness for c5_circle_circle_exactness on the two example circles
of radii one and two at center distance three. -/
theorem c5_circle_circle_exactness_witness :
    0 ≤ exampleCircleA.radius + exampleCircleB.radius ∧
    (((circle_circle_collision exampleCircleA exampleCircleB).isSome = true ↔
      (exampleCircleB.state.position - exampleCircleA.state.position).length ≤
        exampleCircleA.radius + exampleCircleB.radius) ∧
    (∀ data, circle_circle_collision exampleCircleA exampleCircleB = some data →
      (((exampleCircleB.state.position - exampleCircleA.state.position).length =
          exampleCircleA.radius + exampleCircleB.radius →
        data.penetration = 0) ∧
      (exampleCircleB.state.position ≠ exampleCircleA.state.position →
        data.normal =
          (exampleCircleB.state.position - exampleCircleA.state.position).normalized ∧
        data.normal.length = 1)))) :=
  ⟨by norm_num [exampleCircleA, exampleCircleB],
    c5_circle_circle_exactness exampleCircleA exampleCircleB
      (by norm_num [exampleCircleA, exampleCircleB])⟩

theorem ratTrunc_of_nonneg {q : ℚ} (h : 0 ≤ q) : ratTrunc q = ⌊q⌋ := if_pos h

theorem ratToUsize_of_nonneg {q : ℚ} (h : 0 ≤ q) : ratToUsize q = ⌊q⌋.toNat := by
  unfold ratToUsize
  rw [ratTrunc_of_nonneg h, max_eq_right (Int.floor_nonneg.mpr h)]

theorem ratToI32_of_nonneg {q : ℚ} (h0 : 0 ≤ q) (hlt : q < 2 ^ 31 - 1) :
    ratToI32 q = ⌊q⌋ := by
  unfold ratToI32
  rw [ratTrunc_of_nonneg h0]
  have h1 : ⌊q⌋ ≤ 2 ^ 31 - 1 := by
    have h2 : ⌊q⌋ ≤ ⌊((2 ^ 31 - 1 : ℤ) : ℚ)⌋ := Int.floor_le_floor (by push_cast; linarith)
    rwa [Int.floor_intCast] at h2
  rw [min_eq_right h1]
  exact max_eq_right (by have := Int.floor_nonneg.mpr h0; linarith)

theorem i32ToUsize_of_nonneg {r : ℤ} (h0 : 0 ≤ r) (hlt : r < 2 ^ 64) :
    i32ToUsize r = r.toNat := by
  unfold i32ToUsize
  rw [Int.emod_eq_of_lt h0 hlt]

theorem i32ToUsize_of_neg {r : ℤ} (hneg : r < 0) (hge : -(2 ^ 31) ≤ r) :
    (2 ^ 64 - 2 ^ 31 : ℕ) ≤ i32ToUsize r := by
  unfold i32ToUsize
  have e31 : ((2 : ℤ) ^ 31) = 2147483648 := by norm_num
  have e64 : ((2 : ℤ) ^ 64) = 18446744073709551616 := by norm_num
  have h0 : 0 ≤ r + 2 ^ 64 := by rw [e64]; rw [e31] at hge; linarith
  have hlt : r + 2 ^ 64 < 2 ^ 64 := by linarith
  have h1 : r % 2 ^ 64 = r + 2 ^ 64 := by
    rw [e64]
    rw [e31] at hge
    omega
  rw [h1]
  have eN : (2 ^ 64 - 2 ^ 31 : ℕ) = 18446744071562067968 := by norm_num
  rw [eN]
  omega

theorem intRange_mem {x a b : ℤ} : x ∈ intRange a b ↔ a ≤ x ∧ x ≤ b := by
  unfold intRange
  constructor
  · intro hmem
    obtain ⟨k, hk, hkx⟩ := List.mem_map.mp hmem
    rw [List.mem_range] at hk
    subst hkx
    omega
  · intro h
    exact List.mem_map.mpr ⟨(x - a).toNat, List.mem_range.mpr (by omega), by omega⟩

theorem floor_dist_ge_two {a b : ℚ} (h : |a - b| > 2) : 2 ≤ |⌊a⌋ - ⌊b⌋| := by
  rcases lt_abs.mp h with h1 | h1
  · have hle : b + ((2 : ℤ) : ℚ) ≤ a := by push_cast; linarith
    have h2 := Int.floor_le_floor hle
    rw [Int.floor_add_int] at h2
    have h3 : (2 : ℤ) ≤ ⌊a⌋ - ⌊b⌋ := by omega
    exact h3.trans (le_abs_self _)
  · have hle : a + ((2 : ℤ) : ℚ) ≤ b := by push_cast; linarith
    have h2 := Int.floor_le_floor hle
    rw [Int.floor_add_int] at h2
    rw [abs_sub_comm]
    have h3 : (2 : ℤ) ≤ ⌊b⌋ - ⌊a⌋ := by omega
    exact h3.trans (le_abs_self _)

theorem floor_lt_of_ratio {q : ℚ} (h : q < 2 ^ 31 - 1) : ⌊q⌋ < 2 ^ 31 - 1 := by
  have h2 : (⌊q⌋ : ℚ) ≤ q := Int.floor_le q
  have h3 : (⌊q⌋ : ℚ) < 2 ^ 31 - 1 := lt_of_le_of_lt h2 h
  exact_mod_cast h3

theorem getElemOpt_mem {α : Type} {l : List α} {i : ℕ} {a : α} (h : l[i]? = some a) :
    a ∈ l := by
  obtain ⟨hlt, rfl⟩ := List.getElem?_eq_some_iff.mp h
  exact List.getElem_mem hlt

/-- C8 amended: for a position p strictly inside the grid (its cell
exists in the allocated cells), the handle inserted at p is returned by
an immediate-neighbor query at p; and a query at a position q more than
twice the cell size away from p on each axis never returns a handle
that was not already stored somewhere in the lookup. The original
one-cell-size threshold is false: the three by three block around q can
still reach the cell of p. -/
theorem c8_lookup_containment (l : LookUp ℕ) (p q : Vector2 ℚ) (item : ℕ)
    (hcs : 0 < l.cell_size)
    (hpx0 : 0 ≤ p.x) (hpy0 : 0 ≤ p.y) (hpxw : p.x ≤ l.width) (hpyh : p.y ≤ l.height)
    (hrow : ratToUsize (p.y / l.cell_size) < l.cells.length)
    (hcol : ratToUsize (p.x / l.cell_size) <
      (l.cells.getD (ratToUsize (p.y / l.cell_size)) []).length)
    (hsw : l.width / l.cell_size < 2 ^ 31 - 1) (hsh : l.height / l.cell_size < 2 ^ 31 - 1)
    (hcolsb : ∀ row ∈ l.cells, row.length < 2 ^ 63)
    (hfresh : ∀ row ∈ l.cells, ∀ cell ∈ row, item ∉ cell)
    (hqx : 2 * l.cell_size < |q.x - p.x|) (_hqy : 2 * l.cell_size < |q.y - p.y|) :
    item ∈ (l.insert p item).get_immediate_neighbors p ∧
    item ∉ (l.insert p item).get_immediate_neighbors q := by
  have hxq0 : 0 ≤ p.x / l.cell_size := div_nonneg hpx0 hcs.le
  have hyq0 : 0 ≤ p.y / l.cell_size := div_nonneg hpy0 hcs.le
  have hsx : p.x / l.cell_size < 2 ^ 31 - 1 :=
    lt_of_le_of_lt (div_le_div_of_nonneg_right hpxw hcs.le) hsw
  have hsy : p.y / l.cell_size < 2 ^ 31 - 1 :=
    lt_of_le_of_lt (div_le_div_of_nonneg_right hpyh hcs.le) hsh
  have hnotoob : ¬(p.x < 0 ∨ p.x > l.width ∨ p.y < 0 ∨ p.y > l.height) := by
    push_neg
    exact ⟨hpx0, hpxw, hpy0, hpyh⟩
  have hins : l.insert p item = { l with cells := l.insertCells p item } := by
    unfold LookUp.insert
    rw [if_neg hnotoob]
  have hinsc : l.insertCells p item =
      l.cells.set (ratToUsize (p.y / l.cell_size))
        ((l.cells.getD (ratToUsize (p.y / l.cell_size)) []).set
          (ratToUsize (p.x / l.cell_size))
          ((l.cells.getD (ratToUsize (p.y / l.cell_size)) []).getD
            (ratToUsize (p.x / l.cell_size)) [] ++ [item])) := rfl
  have hoff : ratToI32 (l.cell_size / l.cell_size) = 1 := by
    rw [div_self (ne_of_gt hcs)]
    unfold ratToI32
    rw [ratTrunc_of_nonneg (by norm_num : (0:ℚ) ≤ 1), Int.floor_one]
    norm_num
  have hmidpx : ratToI32 (p.x / l.cell_size) = ⌊p.x / l.cell_size⌋ := ratToI32_of_nonneg hxq0 hsx
  have hmidpy : ratToI32 (p.y / l.cell_size) = ⌊p.y / l.cell_size⌋ := ratToI32_of_nonneg hyq0 hsy
  have hfpx0 : (0:ℤ) ≤ ⌊p.x / l.cell_size⌋ := Int.floor_nonneg.mpr hxq0
  have hfpy0 : (0:ℤ) ≤ ⌊p.y / l.cell_size⌋ := Int.floor_nonneg.mpr hyq0
  have hi32px : i32ToUsize ⌊p.x / l.cell_size⌋ = ratToUsize (p.x / l.cell_size) := by
    rw [i32ToUsize_of_nonneg hfpx0 (by have := floor_lt_of_ratio hsx; omega),
      ratToUsize_of_nonneg hxq0]
  have hi32py : i32ToUsize ⌊p.y / l.cell_size⌋ = ratToUsize (p.y / l.cell_size) := by
    rw [i32ToUsize_of_nonneg hfpy0 (by have := floor_lt_of_ratio hsy; omega),
      ratToUsize_of_nonneg hyq0]
  constructor
  · unfold LookUp.get_immediate_neighbors LookUp.get_neighbors_in_radius
    rw [hins]
    dsimp only
    rw [if_neg hnotoob, hoff, hmidpx, hmidpy, hinsc]
    apply List.mem_flatMap.mpr
    refine ⟨⌊p.y / l.cell_size⌋, intRange_mem.mpr ⟨by omega, by omega⟩, ?_⟩
    apply List.mem_flatMap.mpr
    refine ⟨⌊p.x / l.cell_size⌋, intRange_mem.mpr ⟨by omega, by omega⟩, ?_⟩
    unfold LookUp.cellAt
    dsimp only
    rw [hi32py, hi32px, List.getElem?_set_self hrow]
    dsimp only
    rw [List.getElem?_set_self hcol]
    dsimp only
    exact List.mem_append_right _ (List.mem_singleton.mpr rfl)
  · intro hmem
    rw [hins] at hmem
    unfold LookUp.get_immediate_neighbors LookUp.get_neighbors_in_radius at hmem
    dsimp only at hmem
    by_cases hq : q.x < 0 ∨ q.x > l.width ∨ q.y < 0 ∨ q.y > l.height
    · rw [if_pos hq] at hmem
      exact List.not_mem_nil item hmem
    · rw [if_neg hq] at hmem
      push_neg at hq
      obtain ⟨hqx0, hqxw, hqy0, hqyh⟩ := hq
      have hqxq0 : 0 ≤ q.x / l.cell_size := div_nonneg hqx0 hcs.le
      have hqsx : q.x / l.cell_size < 2 ^ 31 - 1 :=
        lt_of_le_of_lt (div_le_div_of_nonneg_right hqxw hcs.le) hsw
      have hmidqx : ratToI32 (q.x / l.cell_size) = ⌊q.x / l.cell_size⌋ :=
        ratToI32_of_nonneg hqxq0 hqsx
      rw [hoff, hmidqx, hinsc] at hmem
      set rowp := ratToUsize (p.y / l.cell_size) with hrowp_def
      set colp := ratToUsize (p.x / l.cell_size) with hcolp_def
      set rowlist := l.cells.getD rowp [] with hrowlist_def
      set newcell := rowlist.getD colp [] ++ [item] with hnewcell_def
      set newrow := rowlist.set colp newcell with hnewrow_def
      obtain ⟨row, hrowmem, hmem2⟩ := List.mem_flatMap.mp hmem
      obtain ⟨col, hcolmem, hmem3⟩ := List.mem_flatMap.mp hmem2
      rw [intRange_mem] at hcolmem
      unfold LookUp.cellAt at hmem3
      dsimp only at hmem3
      have hrowlist_mem : rowlist ∈ l.cells := by
        rw [hrowlist_def, List.getD_eq_getElem?_getD]
        rcases e : l.cells[rowp]? with _ | r0
        · exact absurd (List.getElem?_eq_none_iff.mp e) (not_le.mpr hrow)
        · obtain ⟨hlt, rfl⟩ := List.getElem?_eq_some_iff.mp e
          simp
      rcases e1 : (l.cells.set rowp newrow)[i32ToUsize row]? with _ | r
      · rw [e1] at hmem3
        simp at hmem3
      · rw [e1] at hmem3
        dsimp only at hmem3
        rcases e2 : r[i32ToUsize col]? with _ | cell
        · rw [e2] at hmem3
          simp at hmem3
        · rw [e2] at hmem3
          dsimp only at hmem3
          by_cases hR : i32ToUsize row = rowp
          · rw [hR, List.getElem?_set_self hrow] at e1
            injection e1 with e1'
            by_cases hC : i32ToUsize col = colp
            · exfalso
              have hcolp_lt : colp < rowlist.length := hcol
              have hrl_bound : rowlist.length < 2 ^ 63 := hcolsb rowlist hrowlist_mem
              have hcolpz : (colp : ℤ) = ⌊p.x / l.cell_size⌋ := by
                rw [hcolp_def, ratToUsize_of_nonneg hxq0, Int.toNat_of_nonneg hfpx0]
              have hratio : 2 < |q.x / l.cell_size - p.x / l.cell_size| := by
                rw [← sub_div, abs_div, abs_of_pos hcs, lt_div_iff₀ hcs]
                linarith
              have hfd := floor_dist_ge_two hratio
              have hqfloor0 : (0:ℤ) ≤ ⌊q.x / l.cell_size⌋ := Int.floor_nonneg.mpr hqxq0
              have hqfloorlt : ⌊q.x / l.cell_size⌋ < 2 ^ 31 - 1 := floor_lt_of_ratio hqsx
              rcases le_or_lt 0 col with hcpos | hcneg
              · have hcol64 : col < 2 ^ 64 := by omega
                have hC2 : i32ToUsize col = col.toNat := i32ToUsize_of_nonneg hcpos hcol64
                rw [hC2] at hC
                have hcol_eq : col = (colp : ℤ) := by omega
                rcases le_abs.mp hfd with hf | hf
                · omega
                · omega
              · have hge : -(2:ℤ) ^ 31 ≤ col := by omega
                have hbig := i32ToUsize_of_neg hcneg hge
                rw [hC] at hbig
                omega
            · rw [← e1', hnewrow_def, List.getElem?_set_ne (fun hh => hC hh.symm)] at e2
              have hcellmem : cell ∈ rowlist := getElemOpt_mem e2
              exact hfresh rowlist hrowlist_mem cell hcellmem hmem3
          · rw [List.getElem?_set_ne (fun hh => hR hh.symm)] at e1
            have hrmem : r ∈ l.cells := getElemOpt_mem e1
            have hcellmem : cell ∈ r := getElemOpt_mem e2
            exact hfresh r hrmem cell hcellmem hmem3

/-- Witness for c8_lookup_containment on the concrete 4 by 4 grid. -/
theorem c8_lookup_containment_witness :
    (0 < c8Lookup.cell_size ∧
     0 ≤ c8P.x ∧ 0 ≤ c8P.y ∧ c8P.x ≤ c8Lookup.width ∧ c8P.y ≤ c8Lookup.height ∧
     ratToUsize (c8P.y / c8Lookup.cell_size) < c8Lookup.cells.length ∧
     ratToUsize (c8P.x / c8Lookup.cell_size) <
       (c8Lookup.cells.getD (ratToUsize (c8P.y / c8Lookup.cell_size)) []).length ∧
     c8Lookup.width / c8Lookup.cell_size < 2 ^ 31 - 1 ∧
     c8Lookup.height / c8Lookup.cell_size < 2 ^ 31 - 1 ∧
     (∀ row ∈ c8Lookup.cells, row.length < 2 ^ 63) ∧
     (∀ row ∈ c8Lookup.cells, ∀ cell ∈ row, (0:ℕ) ∉ cell) ∧
     2 * c8Lookup.cell_size < |c8Q.x - c8P.x| ∧ 2 * c8Lookup.cell_size < |c8Q.y - c8P.y|) ∧
    ((0:ℕ) ∈ (c8Lookup.insert c8P 0).get_immediate_neighbors c8P ∧
     (0:ℕ) ∉ (c8Lookup.insert c8P 0).get_immediate_neighbors c8Q) := by
  have e1 : 0 < c8Lookup.cell_size := by norm_num [c8Lookup, LookUp.new]
  have e2 : 0 ≤ c8P.x := by norm_num [c8P]
  have e3 : 0 ≤ c8P.y := by norm_num [c8P]
  have e4 : c8P.x ≤ c8Lookup.width := by norm_num [c8P, c8Lookup, LookUp.new]
  have e5 : c8P.y ≤ c8Lookup.height := by norm_num [c8P, c8Lookup, LookUp.new]
  have e6 : ratToUsize (c8P.y / c8Lookup.cell_size) < c8Lookup.cells.length := by
    norm_num [c8P, c8Lookup, LookUp.new, ratToUsize, ratTrunc, ratFMod]
  have e7 : ratToUsize (c8P.x / c8Lookup.cell_size) <
      (c8Lookup.cells.getD (ratToUsize (c8P.y / c8Lookup.cell_size)) []).length := by
    norm_num [c8P, c8Lookup, LookUp.new, ratToUsize, ratTrunc, ratFMod]
  have e8 : c8Lookup.width / c8Lookup.cell_size < 2 ^ 31 - 1 := by
    norm_num [c8Lookup, LookUp.new]
  have e9 : c8Lookup.height / c8Lookup.cell_size < 2 ^ 31 - 1 := by
    norm_num [c8Lookup, LookUp.new]
  have e10 : ∀ row ∈ c8Lookup.cells, row.length < 2 ^ 63 := by
    intro row hr
    simp [c8Lookup, LookUp.new, ratToUsize, ratTrunc, ratFMod, List.mem_replicate] at hr
    rw [hr.2]
    norm_num
  have e11 : ∀ row ∈ c8Lookup.cells, ∀ cell ∈ row, (0:ℕ) ∉ cell := by
    intro row hr cell hc
    simp [c8Lookup, LookUp.new, ratToUsize, ratTrunc, ratFMod, List.mem_replicate] at hr
    rw [hr.2] at hc
    simp [List.mem_replicate] at hc
    rw [hc.2]
    simp
  have e12 : 2 * c8Lookup.cell_size < |c8Q.x - c8P.x| := by
    have hx : |c8Q.x - c8P.x| = 109/10 := by
      rw [show c8Q.x - c8P.x = (109/10 : ℚ) from by norm_num [c8P, c8Q]]
      rw [abs_of_nonneg]
      norm_num
    rw [hx]
    norm_num [c8Lookup, LookUp.new]
  have e13 : 2 * c8Lookup.cell_size < |c8Q.y - c8P.y| := by
    have hy : |c8Q.y - c8P.y| = 119/10 := by
      rw [show c8Q.y - c8P.y = (119/10 : ℚ) from by norm_num [c8P, c8Q]]
      rw [abs_of_nonneg]
      norm_num
    rw [hy]
    norm_num [c8Lookup, LookUp.new]
  exact ⟨⟨e1, e2, e3, e4, e5, e6, e7, e8, e9, e10, e11, e12, e13⟩,
    c8_lookup_containment c8Lookup c8P c8Q 0 e1 e2 e3 e4 e5 e6 e7 e8 e9 e10 e11 e12 e13⟩

theorem c8_counterexample_insert_eval :
    c8Lookup.insert ⟨1/10, 1/10⟩ 0 =
      (⟨[[[0], [], [], []], [[], [], [], []], [[], [], [], []], [[], [], [], []]],
        20, 20, 5⟩ : LookUp ℕ) := by
  norm_num [c8Lookup, LookUp.new, LookUp.insert, LookUp.insertCells, ratToUsize, ratTrunc,
    ratFMod, LookUp.mk.injEq]
  decide

/-- C8 counterexample: the handle 0 inserted at the position 1/10, 1/10
is still returned by an immediate-neighbor query at 26/5, 26/5, whose
distance from the insertion position exceeds the cell size 5 on both
axes (the distance is 51/10 per axis), refuting the one-cell-size
exclusion threshold. -/
theorem c8_counterexample :
    c8Lookup.cell_size < |(26/5 : ℚ) - 1/10| ∧
    (0:ℕ) ∈ (c8Lookup.insert ⟨1/10, 1/10⟩ 0).get_immediate_neighbors ⟨26/5, 26/5⟩ := by
  constructor
  · rw [show ((26/5 : ℚ) - 1/10) = 51/10 from by norm_num, abs_of_nonneg (by norm_num)]
    norm_num [c8Lookup, LookUp.new]
  · rw [c8_counterexample_insert_eval]
    simp only [LookUp.get_immediate_neighbors, LookUp.get_neighbors_in_radius]
    rw [if_neg (by norm_num)]
    have h1 : ratToI32 ((5 : ℚ) / 5) = 1 := by norm_num [ratToI32, ratTrunc]
    have h2 : ratToI32 ((26/5 : ℚ) / 5) = 1 := by
      norm_num [ratToI32, ratTrunc]
    simp only [h1, h2]
    decide

theorem c7_lookup_eval :
    c7Lookup = (⟨[[[], [], [7], []], [[], [], [], []], [[], [], [], []], [[], [], [], []]],
      20, 20, 5⟩ : LookUp ℕ) := by
  norm_num [c7Lookup, LookUp.new, LookUp.insert, LookUp.insertCells, ratToUsize, ratTrunc,
    ratFMod, LookUp.mk.injEq]
  decide

/-- C7 counterexample: at radius 15/2 on a grid of cell size 5 the
source query truncates the quotient 3/2 to one and returns the empty
3 by 3 block around the cell of the position 5/2, 5/2, while the
claimed ceiling block of half-width two contains the handle 7 filed two
cells to the right, so the two differ. -/
theorem c7_counterexample :
    c7Lookup.get_neighbors_in_radius ⟨5/2, 5/2⟩ (15/2) = [] ∧
    claimedBlockItems c7Lookup ⟨5/2, 5/2⟩ (15/2) = [7] ∧
    c7Lookup.get_neighbors_in_radius ⟨5/2, 5/2⟩ (15/2) ≠
      claimedBlockItems c7Lookup ⟨5/2, 5/2⟩ (15/2) := by
  have hcode : c7Lookup.get_neighbors_in_radius ⟨5/2, 5/2⟩ (15/2) = [] := by
    rw [c7_lookup_eval]
    simp only [LookUp.get_neighbors_in_radius]
    rw [if_neg (by norm_num)]
    have h1 : ratToI32 ((15/2 : ℚ) / 5) = 1 := by norm_num [ratToI32, ratTrunc]
    have h2 : ratToI32 ((5/2 : ℚ) / 5) = 0 := by norm_num [ratToI32, ratTrunc]
    simp only [h1, h2]
    decide
  have hclaim : claimedBlockItems c7Lookup ⟨5/2, 5/2⟩ (15/2) = [7] := by
    rw [c7_lookup_eval]
    simp only [claimedBlockItems]
    rw [if_neg (by norm_num)]
    have h3 : ⌈(15/2 : ℚ) / 5⌉ = 2 := by
      rw [show ((15/2 : ℚ) / 5) = 3/2 from by norm_num, Int.ceil_eq_iff]
      constructor <;> norm_num
    have h4 : ⌊(5/2 : ℚ) / 5⌋ = 0 := by
      rw [show ((5/2 : ℚ) / 5) = 1/2 from by norm_num]
      norm_num
    simp only [h3, h4]
    unfold clippedBlockItems
    decide
  refine ⟨hcode, hclaim, ?_⟩
  rw [hcode, hclaim]
  simp

theorem intRange_eq_nil {a b : ℤ} (h : b < a) : intRange a b = [] := by
  unfold intRange
  rw [show (b + 1 - a).toNat = 0 from by omega]
  rfl

theorem intRange_cons {a b : ℤ} (h : a ≤ b) : intRange a b = a :: intRange (a + 1) b := by
  unfold intRange
  rw [show (b + 1 - a).toNat = (b + 1 - (a + 1)).toNat + 1 from by omega,
    List.range_succ_eq_map]
  simp only [List.map_cons, List.map_map]
  congr 1
  · norm_num
  · apply List.map_congr_left
    intro k _
    simp only [Function.comp]
    push_cast
    ring

theorem flatMap_intRange_clip {α : Type} (f : ℤ → List α) (lo hi : ℤ) :
    ∀ (n : ℕ) (a b : ℤ), (b + 1 - a).toNat = n →
    (∀ i, a ≤ i → i ≤ b → i < lo → f i = []) →
    (∀ i, a ≤ i → i ≤ b → hi < i → f i = []) →
    (intRange a b).flatMap f = (intRange (max a lo) (min b hi)).flatMap f := by
  intro n
  induction n with
  | zero =>
    intro a b hn hlow hhigh
    have hba : b < a := by omega
    rw [intRange_eq_nil hba, intRange_eq_nil (by omega : min b hi < max a lo)]
  | succ n ih =>
    intro a b hn hlow hhigh
    have hab : a ≤ b := by omega
    by_cases hlo : a < lo
    · rw [intRange_cons hab, List.flatMap_cons, hlow a le_rfl hab hlo, List.nil_append,
        show max a lo = max (a + 1) lo from by omega]
      exact ih (a + 1) b (by omega)
        (fun i h1 h2 h3 => hlow i (by omega) h2 h3)
        (fun i h1 h2 h3 => hhigh i (by omega) h2 h3)
    · by_cases hhi : hi < a
      · rw [List.flatMap_eq_nil_iff.mpr
          (fun i hi2 => hhigh i (intRange_mem.mp hi2).1 (intRange_mem.mp hi2).2
            (by have := (intRange_mem.mp hi2).1; omega)),
          intRange_eq_nil (by omega : min b hi < max a lo)]
        rfl
      · rw [intRange_cons hab, List.flatMap_cons,
          show max a lo = a from by omega, intRange_cons (by omega : a ≤ min b hi),
          List.flatMap_cons]
        congr 1
        have hrec := ih (a + 1) b (by omega)
          (fun i h1 h2 h3 => hlow i (by omega) h2 h3)
          (fun i h1 h2 h3 => hhigh i (by omega) h2 h3)
        rw [show max (a + 1) lo = a + 1 from by omega] at hrec
        exact hrec

theorem flatMap_congr_mem {α β : Type} {l : List α} {f g : α → List β}
    (h : ∀ a ∈ l, f a = g a) : l.flatMap f = l.flatMap g := by
  induction l with
  | nil => rfl
  | cons x xs ih =>
    rw [List.flatMap_cons, List.flatMap_cons, h x (List.mem_cons_self x xs),
      ih (fun a ha => h a (List.mem_cons_of_mem x ha))]

theorem getD_mem_of_lt {α : Type} {l : List α} {i : ℕ} {d : α} (h : i < l.length) :
    l.getD i d ∈ l := by
  rw [List.getD_eq_getElem?_getD]
  rcases e : l[i]? with _ | r0
  · exact absurd (List.getElem?_eq_none_iff.mp e) (not_le.mpr h)
  · obtain ⟨hlt, rfl⟩ := List.getElem?_eq_some_iff.mp e
    simp

theorem cellAt_valid {α : Type} (l : LookUp α) (row col : ℤ)
    (hr0 : 0 ≤ row) (hrlt : row < (l.cells.length : ℤ)) (hrb : (l.cells.length : ℤ) < 2 ^ 63)
    (hc0 : 0 ≤ col) (hclt : col < ((l.cells.getD row.toNat []).length : ℤ))
    (hcb : ((l.cells.getD row.toNat []).length : ℤ) < 2 ^ 63) :
    l.cellAt row col = (l.cells.getD row.toNat []).getD col.toNat [] := by
  unfold LookUp.cellAt
  rw [i32ToUsize_of_nonneg hr0 (by omega), i32ToUsize_of_nonneg hc0 (by omega)]
  have h1 : l.cells[row.toNat]? = some (l.cells.getD row.toNat []) := by
    rw [List.getD_eq_getElem?_getD]
    rcases e : l.cells[row.toNat]? with _ | r0
    · exfalso
      have := List.getElem?_eq_none_iff.mp e
      omega
    · simp
  rw [h1]
  dsimp only
  have h2 : (l.cells.getD row.toNat [])[col.toNat]? =
      some ((l.cells.getD row.toNat []).getD col.toNat []) := by
    rcases e : (l.cells.getD row.toNat [])[col.toNat]? with _ | c0
    · exfalso
      have := List.getElem?_eq_none_iff.mp e
      omega
    · rw [List.getD_eq_getElem?_getD (l.cells.getD row.toNat []) col.toNat [], e]
      simp
  rw [h2]

theorem cellAt_row_neg {α : Type} (l : LookUp α) (row col : ℤ)
    (hneg : row < 0) (hge : -(2 ^ 31) ≤ row) (hrb : (l.cells.length : ℤ) < 2 ^ 63) :
    l.cellAt row col = [] := by
  unfold LookUp.cellAt
  have hbig := i32ToUsize_of_neg hneg hge
  have h1 : l.cells[i32ToUsize row]? = none := by
    rw [List.getElem?_eq_none_iff]
    omega
  rw [h1]

theorem cellAt_row_big {α : Type} (l : LookUp α) (row col : ℤ)
    (hr0 : 0 ≤ row) (hge : (l.cells.length : ℤ) ≤ row) (hlt : row < 2 ^ 64) :
    l.cellAt row col = [] := by
  unfold LookUp.cellAt
  rw [i32ToUsize_of_nonneg hr0 hlt]
  have h1 : l.cells[row.toNat]? = none := by
    rw [List.getElem?_eq_none_iff]
    omega
  rw [h1]

theorem cellAt_col_neg {α : Type} (l : LookUp α) (row col : ℤ)
    (hr0 : 0 ≤ row) (hrlt : row < (l.cells.length : ℤ)) (hrb : (l.cells.length : ℤ) < 2 ^ 63)
    (hneg : col < 0) (hge : -(2 ^ 31) ≤ col)
    (hcb : ((l.cells.getD row.toNat []).length : ℤ) < 2 ^ 63) :
    l.cellAt row col = [] := by
  unfold LookUp.cellAt
  rw [i32ToUsize_of_nonneg hr0 (by omega)]
  have h1 : l.cells[row.toNat]? = some (l.cells.getD row.toNat []) := by
    rw [List.getD_eq_getElem?_getD]
    rcases e : l.cells[row.toNat]? with _ | r0
    · exfalso
      have := List.getElem?_eq_none_iff.mp e
      omega
    · simp
  rw [h1]
  dsimp only
  have hbig := i32ToUsize_of_neg hneg hge
  have h2 : (l.cells.getD row.toNat [])[i32ToUsize col]? = none := by
    rw [List.getElem?_eq_none_iff]
    omega
  rw [h2]

theorem cellAt_col_big {α : Type} (l : LookUp α) (row col : ℤ)
    (hr0 : 0 ≤ row) (hrlt : row < (l.cells.length : ℤ)) (hrb : (l.cells.length : ℤ) < 2 ^ 63)
    (hc0 : 0 ≤ col) (hge : ((l.cells.getD row.toNat []).length : ℤ) ≤ col) (hlt : col < 2 ^ 64) :
    l.cellAt row col = [] := by
  unfold LookUp.cellAt
  rw [i32ToUsize_of_nonneg hr0 (by omega), i32ToUsize_of_nonneg hc0 hlt]
  have h1 : l.cells[row.toNat]? = some (l.cells.getD row.toNat []) := by
    rw [List.getD_eq_getElem?_getD]
    rcases e : l.cells[row.toNat]? with _ | r0
    · exfalso
      have := List.getElem?_eq_none_iff.mp e
      omega
    · simp
  rw [h1]
  dsimp only
  have h2 : (l.cells.getD row.toNat [])[col.toNat]? = none := by
    rw [List.getElem?_eq_none_iff]
    omega
  rw [h2]

/-- C7 amended: for an in-bounds position and a nonnegative radius (with
the grid and the quotients within the machine ranges), the neighbor
query returns exactly the items of the square block of half-width the
TRUNCATED quotient of radius over cell size, centered on the cell of
the position and clipped to the grid, in row-major order; the claimed
ceiling half-width is wrong whenever the quotient is fractional. Out of
bounds the query returns the empty sequence. -/
theorem c7_neighbors_block (l : LookUp ℕ) (pos : Vector2 ℚ) (radius : ℚ)
    (hcs : 0 < l.cell_size) (hr0 : 0 ≤ radius)
    (hpx0 : 0 ≤ pos.x) (hpy0 : 0 ≤ pos.y) (hpxw : pos.x ≤ l.width) (hpyh : pos.y ≤ l.height)
    (hsw : l.width / l.cell_size < 2 ^ 31 - 1) (hsh : l.height / l.cell_size < 2 ^ 31 - 1)
    (hsr : radius / l.cell_size < 2 ^ 31 - 1)
    (hrowsb : l.cells.length < 2 ^ 63)
    (hcolsb : ∀ row ∈ l.cells, row.length < 2 ^ 63) :
    l.get_neighbors_in_radius pos radius =
      clippedBlockItems l
        (⌊pos.y / l.cell_size⌋ - ⌊radius / l.cell_size⌋)
        (⌊pos.y / l.cell_size⌋ + ⌊radius / l.cell_size⌋)
        (⌊pos.x / l.cell_size⌋ - ⌊radius / l.cell_size⌋)
        (⌊pos.x / l.cell_size⌋ + ⌊radius / l.cell_size⌋) ∧
    (∀ pos2 : Vector2 ℚ,
      (pos2.x < 0 ∨ pos2.x > l.width ∨ pos2.y < 0 ∨ pos2.y > l.height) →
      l.get_neighbors_in_radius pos2 radius = []) := by
  have hxq0 : 0 ≤ pos.x / l.cell_size := div_nonneg hpx0 hcs.le
  have hyq0 : 0 ≤ pos.y / l.cell_size := div_nonneg hpy0 hcs.le
  have hrq0 : 0 ≤ radius / l.cell_size := div_nonneg hr0 hcs.le
  have hsx : pos.x / l.cell_size < 2 ^ 31 - 1 :=
    lt_of_le_of_lt (div_le_div_of_nonneg_right hpxw hcs.le) hsw
  have hsy : pos.y / l.cell_size < 2 ^ 31 - 1 :=
    lt_of_le_of_lt (div_le_div_of_nonneg_right hpyh hcs.le) hsh
  have hmc0 : (0:ℤ) ≤ ⌊pos.x / l.cell_size⌋ := Int.floor_nonneg.mpr hxq0
  have hmr0 : (0:ℤ) ≤ ⌊pos.y / l.cell_size⌋ := Int.floor_nonneg.mpr hyq0
  have ht0 : (0:ℤ) ≤ ⌊radius / l.cell_size⌋ := Int.floor_nonneg.mpr hrq0
  have hmclt : ⌊pos.x / l.cell_size⌋ < 2 ^ 31 - 1 := floor_lt_of_ratio hsx
  have hmrlt : ⌊pos.y / l.cell_size⌋ < 2 ^ 31 - 1 := floor_lt_of_ratio hsy
  have htlt : ⌊radius / l.cell_size⌋ < 2 ^ 31 - 1 := floor_lt_of_ratio hsr
  have hrowsbz : (l.cells.length : ℤ) < 2 ^ 63 := by exact_mod_cast hrowsb
  constructor
  · have hnotoob : ¬(pos.x < 0 ∨ pos.x > l.width ∨ pos.y < 0 ∨ pos.y > l.height) := by
      push_neg
      exact ⟨hpx0, hpxw, hpy0, hpyh⟩
    unfold LookUp.get_neighbors_in_radius
    rw [if_neg hnotoob]
    dsimp only
    rw [ratToI32_of_nonneg hrq0 hsr, ratToI32_of_nonneg hxq0 hsx, ratToI32_of_nonneg hyq0 hsy]
    unfold clippedBlockItems
    refine Eq.trans
      (flatMap_intRange_clip _ 0 ((l.cells.length : ℤ) - 1)
        ((⌊pos.y / l.cell_size⌋ + ⌊radius / l.cell_size⌋ + 1 -
          (⌊pos.y / l.cell_size⌋ - ⌊radius / l.cell_size⌋)).toNat) _ _ rfl ?_ ?_) ?_
    · intro i h1 h2 h3
      apply List.flatMap_eq_nil_iff.mpr
      intro col _
      exact cellAt_row_neg l i col h3 (by omega) hrowsbz
    · intro i h1 h2 h3
      apply List.flatMap_eq_nil_iff.mpr
      intro col _
      exact cellAt_row_big l i col (by omega) (by omega) (by omega)
    · apply flatMap_congr_mem
      intro row hrowmem
      rw [intRange_mem] at hrowmem
      have hrow0 : 0 ≤ row := by omega
      have hrowlt : row < (l.cells.length : ℤ) := by omega
      have hrlmem : l.cells.getD row.toNat [] ∈ l.cells :=
        getD_mem_of_lt (by omega)
      have hrlb : ((l.cells.getD row.toNat []).length : ℤ) < 2 ^ 63 := by
        exact_mod_cast hcolsb _ hrlmem
      refine Eq.trans
        (flatMap_intRange_clip _ 0 (((l.cells.getD row.toNat []).length : ℤ) - 1)
          ((⌊pos.x / l.cell_size⌋ + ⌊radius / l.cell_size⌋ + 1 -
            (⌊pos.x / l.cell_size⌋ - ⌊radius / l.cell_size⌋)).toNat) _ _ rfl ?_ ?_) ?_
      · intro i h1 h2 h3
        exact cellAt_col_neg l row i hrow0 hrowlt hrowsbz h3 (by omega) hrlb
      · intro i h1 h2 h3
        exact cellAt_col_big l row i hrow0 hrowlt hrowsbz (by omega) (by omega) (by omega)
      · apply flatMap_congr_mem
        intro col hcolmem
        rw [intRange_mem] at hcolmem
        exact cellAt_valid l row col hrow0 hrowlt hrowsbz (by omega) (by omega) hrlb
  · intro pos2 h2
    unfold LookUp.get_neighbors_in_radius
    rw [if_pos h2]

/-- Witness for c7_neighbors_block on the concrete 4 by 4 grid holding
the handle 7, queried at 5/2, 5/2 with radius 15/2. -/
theorem c7_neighbors_block_witness :
    (0 < c7Lookup.cell_size ∧ 0 ≤ (15/2 : ℚ) ∧
     0 ≤ (Vector2.mk (5/2 : ℚ) (5/2)).x ∧ 0 ≤ (Vector2.mk (5/2 : ℚ) (5/2)).y ∧
     (Vector2.mk (5/2 : ℚ) (5/2)).x ≤ c7Lookup.width ∧
     (Vector2.mk (5/2 : ℚ) (5/2)).y ≤ c7Lookup.height ∧
     c7Lookup.width / c7Lookup.cell_size < 2 ^ 31 - 1 ∧
     c7Lookup.height / c7Lookup.cell_size < 2 ^ 31 - 1 ∧
     (15/2 : ℚ) / c7Lookup.cell_size < 2 ^ 31 - 1 ∧
     c7Lookup.cells.length < 2 ^ 63 ∧
     (∀ row ∈ c7Lookup.cells, row.length < 2 ^ 63)) ∧
    (c7Lookup.get_neighbors_in_radius ⟨5/2, 5/2⟩ (15/2) =
      clippedBlockItems c7Lookup
        (⌊(Vector2.mk (5/2 : ℚ) (5/2)).y / c7Lookup.cell_size⌋ - ⌊(15/2 : ℚ) / c7Lookup.cell_size⌋)
        (⌊(Vector2.mk (5/2 : ℚ) (5/2)).y / c7Lookup.cell_size⌋ + ⌊(15/2 : ℚ) / c7Lookup.cell_size⌋)
        (⌊(Vector2.mk (5/2 : ℚ) (5/2)).x / c7Lookup.cell_size⌋ - ⌊(15/2 : ℚ) / c7Lookup.cell_size⌋)
        (⌊(Vector2.mk (5/2 : ℚ) (5/2)).x / c7Lookup.cell_size⌋ + ⌊(15/2 : ℚ) / c7Lookup.cell_size⌋) ∧
     (∀ pos2 : Vector2 ℚ,
       (pos2.x < 0 ∨ pos2.x > c7Lookup.width ∨ pos2.y < 0 ∨ pos2.y > c7Lookup.height) →
       c7Lookup.get_neighbors_in_radius pos2 (15/2) = [])) := by
  have e1 : 0 < c7Lookup.cell_size := by rw [c7_lookup_eval]; norm_num
  have e2 : 0 ≤ (15/2 : ℚ) := by norm_num
  have e3 : 0 ≤ (Vector2.mk (5/2 : ℚ) (5/2)).x := by norm_num
  have e4 : 0 ≤ (Vector2.mk (5/2 : ℚ) (5/2)).y := by norm_num
  have e5 : (Vector2.mk (5/2 : ℚ) (5/2)).x ≤ c7Lookup.width := by rw [c7_lookup_eval]; norm_num
  have e6 : (Vector2.mk (5/2 : ℚ) (5/2)).y ≤ c7Lookup.height := by rw [c7_lookup_eval]; norm_num
  have e7 : c7Lookup.width / c7Lookup.cell_size < 2 ^ 31 - 1 := by rw [c7_lookup_eval]; norm_num
  have e8 : c7Lookup.height / c7Lookup.cell_size < 2 ^ 31 - 1 := by rw [c7_lookup_eval]; norm_num
  have e9 : (15/2 : ℚ) / c7Lookup.cell_size < 2 ^ 31 - 1 := by rw [c7_lookup_eval]; norm_num
  have e10 : c7Lookup.cells.length < 2 ^ 63 := by rw [c7_lookup_eval]; norm_num
  have e11 : ∀ row ∈ c7Lookup.cells, row.length < 2 ^ 63 := by
    intro row hr
    rw [c7_lookup_eval] at hr
    simp at hr
    rcases hr with rfl | rfl | rfl | rfl <;> norm_num
  exact ⟨⟨e1, e2, e3, e4, e5, e6, e7, e8, e9, e10, e11⟩,
    c7_neighbors_block c7Lookup ⟨5/2, 5/2⟩ (15/2) e1 e2 e3 e4 e5 e6 e7 e8 e9 e10 e11⟩
